import Mathlib

set_option autoImplicit false

/-!
# Verification of the Airtel C2B IPN transaction-lifecycle core

Shallow embedding of the two-phase IPN lifecycle implemented in
`app/api/validate.py`, `app/api/process.py`, `app/models/repository.py`,
`app/models/*.py` and `app/utils/validators.py`.

Modelling conventions:
* Machine floats never enter any proved property; Python `float` values are
  carried opaquely by their source text (`PyFloat`), and `float(...)`
  conversion is modelled by a recogniser of Python float syntax that either
  accepts (returns the opaque value) or raises (returns `none`).
* `datetime.utcnow()` is modelled by a `Nat` clock supplied to each operation.
* Database rows are records in lists held by a `DB` structure; the storage
  engine's constraint enforcement (unique index, NOT NULL) is out of scope,
  as is the ORM session machinery: repository functions are translated
  directly as state transformers over `DB`.
-/

namespace Ipn

/-! ## Enumerations (`app/models/transaction.py`, `app/models/customer.py`) -/

/-- `TransactionStatus` enum from `app/models/transaction.py`. -/
inductive TransactionStatus where
  | PENDING
  | VALIDATED
  | PROCESSED
  | FAILED
deriving DecidableEq, Repr

/-- `CustomerStatus` enum from `app/models/customer.py`. -/
inductive CustomerStatus where
  | ACTIVE
  | INACTIVE
  | SUSPENDED
deriving DecidableEq, Repr

/-! ## Opaque Python floats -/

/-- A Python `float` carried opaquely by the text it was converted from.
No claim in this development depends on float arithmetic; only the
success/failure of `float(...)` conversion and value identity matter. -/
structure PyFloat where
  repr : String
deriving DecidableEq, Repr

/-- Recogniser for the strings accepted by Python's `float(...)` constructor:
optional surrounding whitespace, optional sign, then either `inf`/`infinity`/
`nan` (case-insensitive) or a decimal mantissa (digits, optionally with one
dot, at least one digit overall) with an optional `e`/`E` exponent.
(Underscore digit grouping, accepted by CPython, is not modelled; no input
in this development uses it.) -/
def pyFloatDigits (l : List Char) : Bool :=
  !l.isEmpty && l.all Char.isDigit

def pyFloatMantissa (l : List Char) : Bool :=
  let intPart := l.takeWhile Char.isDigit
  let rest := l.dropWhile Char.isDigit
  match rest with
  | [] => !intPart.isEmpty
  | '.' :: frac => (!intPart.isEmpty || !frac.isEmpty) && frac.all Char.isDigit
  | _ => false

def pyFloatExponentPart (l : List Char) : Bool :=
  match l with
  | '+' :: ds => pyFloatDigits ds
  | '-' :: ds => pyFloatDigits ds
  | ds => pyFloatDigits ds

def pyFloatNumBody (l : List Char) : Bool :=
  let mant := l.takeWhile (fun c => c ≠ 'e' && c ≠ 'E')
  let rest := l.dropWhile (fun c => c ≠ 'e' && c ≠ 'E')
  match rest with
  | [] => pyFloatMantissa mant
  | _ :: expo => pyFloatMantissa mant && pyFloatExponentPart expo

def pyFloatUnsigned (l : List Char) : Bool :=
  let low := l.map Char.toLower
  low = "inf".data || low = "infinity".data || low = "nan".data ||
    pyFloatNumBody l

def pyFloatBody (l : List Char) : Bool :=
  match l with
  | '+' :: rest => pyFloatUnsigned rest
  | '-' :: rest => pyFloatUnsigned rest
  | _ => pyFloatUnsigned l

/-- Characters stripped by Python `str.strip()` / ignored by `float(...)`. -/
def pyWhitespace (c : Char) : Bool :=
  c = ' ' || c = '\t' || c = '\n' || c = '\r' || c = '\x0b' || c = '\x0c'

def pyStripChars (l : List Char) : List Char :=
  (l.dropWhile pyWhitespace).reverse.dropWhile pyWhitespace |>.reverse

/-- Python `str.strip()`. -/
def pyStrip (s : String) : String :=
  ⟨pyStripChars s.data⟩

def charsStartWith : List Char → List Char → Bool
  | _, [] => true
  | [], _ :: _ => false
  | c :: cs, p :: ps => c = p && charsStartWith cs ps

/-- Python `s.startswith(pre)`. -/
def pyStartsWith (s pre : String) : Bool :=
  charsStartWith s.data pre.data

/-- Python `s.upper()` on the ASCII field values this interface carries. -/
def pyToUpper (s : String) : String :=
  ⟨s.data.map Char.toUpper⟩

/-- `body_str.strip().startswith("<")`: the wire format is markup exactly
when the first non-whitespace character is `<`. -/
def detectsMarkup (body_str : String) : Bool :=
  pyStartsWith (pyStrip body_str) "<"

/-- `float(s)`: `some` of the opaque value on success, `none` when the
conversion raises `ValueError`. -/
def pyFloat? (s : String) : Option PyFloat :=
  if pyFloatBody (pyStripChars s.data) then some ⟨s⟩ else none

/-! ## Reference validators (`app/utils/validators.py`) -/

/-- Character class `[a-zA-Z0-9_\-\.]` of the bill-reference regex. -/
def isBillRefChar (c : Char) : Bool :=
  (('a' ≤ c && c ≤ 'z') || ('A' ≤ c && c ≤ 'Z') || ('0' ≤ c && c ≤ '9')
    || c = '_' || c = '-' || c = '.')

/-- Semantics of `re.match(r'^[a-zA-Z0-9_\-\.]+$', s)` under Python `re`:
the anchored pattern matches the whole string, except that `$` (without
`re.MULTILINE`) also matches just before a single newline at the very end
of the string, so a trailing `'\n'` after one or more class characters is
accepted. -/
def billRefPatternMatch (s : String) : Bool :=
  let cs := s.data
  (!cs.isEmpty && cs.all isBillRefChar) ||
    (cs.getLast? = some '\n' && !cs.dropLast.isEmpty
      && cs.dropLast.all isBillRefChar)

/-- `validate_bill_ref` from `app/utils/validators.py`. -/
def validate_bill_ref (bill_ref : String) : Bool × Option String :=
  if bill_ref = "" then
    (false, some "Bill reference number cannot be empty")
  else if bill_ref.length > 50 then
    (false, some "Bill reference number is too long")
  else if !billRefPatternMatch bill_ref then
    (false, some "Bill reference number contains invalid characters")
  else
    (true, none)

/-- The fixed enumerated set of reference types in `validate_ref_type`. -/
def allowedRefTypes : List String :=
  ["MSISDN", "ACCOUNT", "INVOICE", "POLICY", "METER", "OTHER"]

/-- `validate_ref_type` from `app/utils/validators.py`. -/
def validate_ref_type (ref_type : String) : Bool × Option String :=
  if ref_type = "" then
    (false, some "Reference type cannot be empty")
  else if !(allowedRefTypes.contains (pyToUpper ref_type)) then
    (false, some "Reference type must be one of: MSISDN, ACCOUNT, INVOICE, POLICY, METER, OTHER")
  else
    (true, none)

/-! ## Wire codec: markup side

Model of the use of `xml.etree.ElementTree` in `parse_xml_request`
(`app/api/validate.py` / `app/api/process.py`): parse the document and map
each top-level child's tag to its text.  The parser covers the XML subset
exchanged on this interface: elements with optional attributes (parsed and
discarded, as the endpoints only read tags and text), character data with
the five named entities and numeric character references, `\r`-newline
normalisation, and rejection of malformed documents (mismatched or
unterminated tags, bad entities, `]]>` or control characters in character
data, trailing junk).  XML declarations, comments, processing instructions
and CDATA sections are not modelled; no payload on this interface uses
them. -/

/-- Element tree: tag, text before the first child (`None` when empty, as in
ElementTree), children. Tail text is consumed but not retained, matching
`{child.tag: child.text for child in root}`. -/
inductive XmlTree where
  | elem (tag : String) (text : Option String) (children : List XmlTree)

def XmlTree.tag : XmlTree → String
  | .elem t _ _ => t

def XmlTree.text : XmlTree → Option String
  | .elem _ t _ => t

def XmlTree.children : XmlTree → List XmlTree
  | .elem _ _ c => c

def isXmlSpace (c : Char) : Bool :=
  c = ' ' || c = '\t' || c = '\n' || c = '\r'

def isXmlNameStart (c : Char) : Bool :=
  c.isAlpha || c = '_' || c = ':'

def isXmlNameChar (c : Char) : Bool :=
  isXmlNameStart c || c.isDigit || c = '-' || c = '.'

/-- The `Char` production of XML 1.0: tab, LF, CR and non-control,
non-surrogate code points. -/
def isXmlChar (c : Char) : Bool :=
  c = '\t' || c = '\n' || c = '\r' ||
    (0x20 ≤ c.toNat && c.toNat ≤ 0xD7FF) ||
    (0xE000 ≤ c.toNat && c.toNat ≤ 0xFFFD) ||
    (0x10000 ≤ c.toNat && c.toNat ≤ 0x10FFFF)

/-- Split an entity reference after the `&`: the name up to `;` and the
rest. Fails at end of input or at a `<`/`&` before any `;`. -/
def entitySplit : List Char → Option (List Char × List Char)
  | [] => none
  | ';' :: rest => some ([], rest)
  | c :: rest =>
    if c = '<' || c = '&' then none
    else (entitySplit rest).map (fun p => (c :: p.1, p.2))

def hexDigitVal (c : Char) : Option Nat :=
  let n := c.toNat
  if 48 ≤ n && n ≤ 57 then some (n - 48)
  else if 97 ≤ n && n ≤ 102 then some (n - 87)
  else if 65 ≤ n && n ≤ 70 then some (n - 55)
  else none

def digitsToNat (base : Nat) (l : List Char) : Option Nat :=
  l.foldlM (fun acc c =>
    match hexDigitVal c with
    | some v => if v < base then some (acc * base + v) else none
    | none => none) 0

/-- Resolve an entity name to its character: the five predefined named
entities plus decimal and hexadecimal character references. -/
def entityChar (name : List Char) : Option Char :=
  if name = "amp".data then some '&'
  else if name = "lt".data then some '<'
  else if name = "gt".data then some '>'
  else if name = "quot".data then some '"'
  else if name = "apos".data then some '\''
  else
    match name with
    | '#' :: 'x' :: ds =>
      (digitsToNat 16 ds).bind fun n =>
        if n.isValidChar then some (Char.ofNat n) else none
    | '#' :: ds =>
      (digitsToNat 10 ds).bind fun n =>
        if n.isValidChar then some (Char.ofNat n) else none
    | _ => none

/-- Parse a run of character data, stopping at `<` or at end of input.
Decodes entity references, normalises `\r\n` and lone `\r` to `\n`, rejects
`]]>` and characters outside the XML `Char` production. `fuel` is an upper
bound on the number of steps; callers pass `cs.length + 1`. -/
def parseText (fuel : Nat) (cs : List Char) (acc : List Char) :
    Except String (List Char × List Char) :=
  match fuel with
  | 0 => .error "internal: text fuel exhausted"
  | fuel + 1 =>
    match cs with
    | [] => .ok (acc.reverse, [])
    | c :: rest =>
      if c = '<' then .ok (acc.reverse, c :: rest)
      else if c = '&' then
        match entitySplit rest with
        | none => .error "malformed entity reference"
        | some (name, rest2) =>
          match entityChar name with
          | none => .error "undefined entity"
          | some ch => parseText fuel rest2 (ch :: acc)
      else if c = '\r' then
        match rest with
        | '\n' :: rest2 => parseText fuel rest2 ('\n' :: acc)
        | _ => parseText fuel rest ('\n' :: acc)
      else if c = ']' then
        match rest with
        | ']' :: '>' :: _ => .error "sequence ]]> in character data"
        | _ => parseText fuel rest (c :: acc)
      else if isXmlChar c then parseText fuel rest (c :: acc)
      else .error "invalid character in character data"

/-- Parse a tag name: a name-start character followed by name characters. -/
def parseXmlName (cs : List Char) : Except String (String × List Char) :=
  match cs with
  | [] => .error "unexpected end of document"
  | c :: rest =>
    if isXmlNameStart c then
      .ok (⟨c :: rest.takeWhile isXmlNameChar⟩, rest.dropWhile isXmlNameChar)
    else .error "malformed tag name"

/-- Skip attributes inside a start tag, stopping before `>` or `/>`.
Attribute values are required to be quoted and free of `<`, `&` and the
quote character; the endpoint reads only tags and text, so values are
discarded. -/
def parseXmlAttrs (fuel : Nat) (cs : List Char) : Except String (List Char) :=
  match fuel with
  | 0 => .error "internal: attribute fuel exhausted"
  | fuel + 1 =>
    let cs := cs.dropWhile isXmlSpace
    match cs with
    | '>' :: _ => .ok cs
    | '/' :: _ => .ok cs
    | _ =>
      match parseXmlName cs with
      | .error e => .error e
      | .ok (_, rest1) =>
        match rest1.dropWhile isXmlSpace with
        | '=' :: rest2 =>
          match rest2.dropWhile isXmlSpace with
          | q :: rest3 =>
            if q = '"' || q = '\'' then
              let v := rest3.takeWhile (fun c => c ≠ q && c ≠ '<' && c ≠ '&')
              match rest3.dropWhile (fun c => c ≠ q && c ≠ '<' && c ≠ '&') with
              | q' :: rest4 =>
                if q' = q && v.all isXmlChar then parseXmlAttrs fuel rest4
                else .error "malformed attribute value"
              | [] => .error "unterminated attribute value"
            else .error "malformed attribute"
          | [] => .error "unexpected end of start tag"
        | _ => .error "malformed attribute"

mutual

/-- Parse one element starting at `<`. -/
def parseElement (fuel : Nat) (cs : List Char) :
    Except String (XmlTree × List Char) :=
  match fuel with
  | 0 => .error "internal: element fuel exhausted"
  | fuel + 1 =>
    match cs with
    | '<' :: rest =>
      match parseXmlName rest with
      | .error e => .error e
      | .ok (name, rest1) =>
        match parseXmlAttrs (rest1.length + 1) rest1 with
        | .error e => .error e
        | .ok rest2 =>
          match rest2 with
          | '/' :: '>' :: rest3 => .ok (.elem name none [], rest3)
          | '>' :: rest3 =>
            match parseText (rest3.length + 1) rest3 [] with
            | .error e => .error e
            | .ok (txt, rest4) =>
              parseChildren fuel name
                (if txt.isEmpty then none else some ⟨txt⟩) [] rest4
          | _ => .error "malformed start tag"
    | _ => .error "expected element start"

/-- Parse the children and closing tag of the element named `tag`,
positioned after a character-data run (so at `<` or at end of input). The
tail text after each child is consumed and discarded. -/
def parseChildren (fuel : Nat) (tag : String) (firstText : Option String)
    (acc : List XmlTree) (cs : List Char) :
    Except String (XmlTree × List Char) :=
  match fuel with
  | 0 => .error "internal: element fuel exhausted"
  | fuel + 1 =>
    match cs with
    | '<' :: '/' :: rest =>
      match parseXmlName rest with
      | .error e => .error e
      | .ok (name, rest1) =>
        if name = tag then
          match rest1.dropWhile isXmlSpace with
          | '>' :: rest2 => .ok (.elem tag firstText acc.reverse, rest2)
          | _ => .error "malformed end tag"
        else .error "mismatched end tag"
    | '<' :: _ =>
      match parseElement fuel cs with
      | .error e => .error e
      | .ok (child, rest1) =>
        match parseText (rest1.length + 1) rest1 [] with
        | .error e => .error e
        | .ok (_, rest2) => parseChildren fuel tag firstText (child :: acc) rest2
    | _ => .error "no element found"

end

/-- Model of `ET.fromstring`: optional leading whitespace, one root element,
optional trailing whitespace. -/
def xmlFromString (s : String) : Except String XmlTree :=
  let cs := s.data.dropWhile isXmlSpace
  match parseElement (cs.length + 1) cs with
  | .error e => .error e
  | .ok (root, rest) =>
    if (rest.dropWhile isXmlSpace).isEmpty then .ok root
    else .error "junk after document element"

/-- Decoded field map: each field name with its optional text content.
Lookup takes the last binding, matching Python `dict` insertion-overwrite
semantics for both the XML child loop and JSON object keys. -/
abbrev Payload := List (String × Option String)

/-- `payload.get(k)`: `None` both when the key is absent and when it is
bound to `None`/`null` (indistinguishable through `.get`, as in Python). -/
def getField (p : Payload) (k : String) : Option String :=
  ((p.filter (fun e => e.1 = k)).getLast?).bind (fun e => e.2)

/-- `k in payload and payload[k] == v` (used for the `TYPE` check): the last
binding of `k` must be exactly the string `v`. -/
def fieldEquals (p : Payload) (k v : String) : Bool :=
  getField p k = some v

/-- `parse_xml_request` from `app/api/validate.py` / `app/api/process.py`:
`root = ET.fromstring(xml_content)`, then `{child.tag: child.text}`. On
parse failure the source raises `HTTPException(400, "Invalid XML format:
...")`; the error text is returned for the caller's handler. -/
def parse_xml_request (xml_content : String) : Except String Payload :=
  match xmlFromString xml_content with
  | .error e => .error e
  | .ok root => .ok (root.children.map (fun c => (c.tag, c.text)))

/-- The markup reply body built by `create_response` in both endpoints: the
f-string template with `status` and `message` interpolated verbatim (no
escaping). -/
def xmlReplyContent (status message : String) : String :=
  "\n        <COMMAND>\n            <STATUS>" ++ (status ++
    ("</STATUS>\n            <MESSAGE>" ++ (message ++
      "</MESSAGE>\n        </COMMAND>\n        ")))

/-! ## Wire codec: key-value side

Model of `await request.json()` for the payloads this interface exchanges:
a flat JSON object whose values are strings or `null` (the shape of every
gateway notification; numbers, booleans and nested values are outside the
modelled subset and are reported as decode errors). -/

def parseJsonStringChars (fuel : Nat) (cs : List Char) (acc : List Char) :
    Except String (String × List Char) :=
  match fuel with
  | 0 => .error "internal: string fuel exhausted"
  | fuel + 1 =>
    match cs with
    | [] => .error "unterminated string"
    | '"' :: rest => .ok (⟨acc.reverse⟩, rest)
    | '\\' :: esc :: rest =>
      if esc = '"' then parseJsonStringChars fuel rest ('"' :: acc)
      else if esc = '\\' then parseJsonStringChars fuel rest ('\\' :: acc)
      else if esc = '/' then parseJsonStringChars fuel rest ('/' :: acc)
      else if esc = 'b' then parseJsonStringChars fuel rest ('\x08' :: acc)
      else if esc = 'f' then parseJsonStringChars fuel rest ('\x0c' :: acc)
      else if esc = 'n' then parseJsonStringChars fuel rest ('\n' :: acc)
      else if esc = 'r' then parseJsonStringChars fuel rest ('\r' :: acc)
      else if esc = 't' then parseJsonStringChars fuel rest ('\t' :: acc)
      else if esc = 'u' then
        match rest with
        | h1 :: h2 :: h3 :: h4 :: rest2 =>
          match digitsToNat 16 [h1, h2, h3, h4] with
          | some n =>
            if n.isValidChar then
              parseJsonStringChars fuel rest2 (Char.ofNat n :: acc)
            else .error "unsupported escape"
          | none => .error "invalid unicode escape"
        | _ => .error "invalid unicode escape"
      else .error "invalid escape"
    | '\\' :: [] => .error "unterminated string"
    | c :: rest =>
      if c.toNat < 0x20 then .error "control character in string"
      else parseJsonStringChars fuel rest (c :: acc)

def isJsonSpace (c : Char) : Bool :=
  c = ' ' || c = '\t' || c = '\n' || c = '\r'

/-- A JSON value of the modelled subset: a string or `null`. -/
def parseJsonFieldValue (cs : List Char) :
    Except String (Option String × List Char) :=
  match cs with
  | '"' :: rest =>
    match parseJsonStringChars (rest.length + 1) rest [] with
    | .error e => .error e
    | .ok (s, rest1) => .ok (some s, rest1)
  | 'n' :: 'u' :: 'l' :: 'l' :: rest => .ok (none, rest)
  | _ => .error "unsupported JSON value"

def parseJsonMembers (fuel : Nat) (cs : List Char) (acc : Payload) :
    Except String (Payload × List Char) :=
  match fuel with
  | 0 => .error "internal: member fuel exhausted"
  | fuel + 1 =>
    match cs.dropWhile isJsonSpace with
    | '"' :: rest =>
      match parseJsonStringChars (rest.length + 1) rest [] with
      | .error e => .error e
      | .ok (key, rest1) =>
        match rest1.dropWhile isJsonSpace with
        | ':' :: rest2 =>
          match parseJsonFieldValue (rest2.dropWhile isJsonSpace) with
          | .error e => .error e
          | .ok (v, rest3) =>
            match rest3.dropWhile isJsonSpace with
            | ',' :: rest4 => parseJsonMembers fuel rest4 (acc ++ [(key, v)])
            | '}' :: rest4 => .ok (acc ++ [(key, v)], rest4)
            | _ => .error "expected , or \x7d"
        | _ => .error "expected :"
    | _ => .error "expected property name"

/-- Model of `await request.json()` on the modelled subset. -/
def parse_json_request (body : String) : Except String Payload :=
  match body.data.dropWhile isJsonSpace with
  | '{' :: rest =>
    match rest.dropWhile isJsonSpace with
    | '}' :: rest1 =>
      if (rest1.dropWhile isJsonSpace).isEmpty then .ok []
      else .error "extra data"
    | _ =>
      match parseJsonMembers (rest.length + 1) rest [] with
      | .error e => .error e
      | .ok (p, rest1) =>
        if (rest1.dropWhile isJsonSpace).isEmpty then .ok p
        else .error "extra data"
  | _ => .error "expecting value"

/-! ## Data model (`app/models/*.py`)

Rows are records; `id` columns are autoincrement primary keys drawn from
per-table counters. Timestamps are `Nat` clock values. -/

/-- `Customer` row (`app/models/customer.py`). -/
structure Customer where
  id : Nat
  bill_ref : String
  ref_type : String
  msisdn : String
  full_name : String
  email : Option String
  id_number : Option String
  address : Option String
  status : CustomerStatus
  created_at : Nat
  updated_at : Nat
deriving DecidableEq, Repr

/-- `Transaction` row (`app/models/transaction.py`). `customer_id` is
declared NOT NULL in the source model, but the storage engine's constraint
enforcement is out of scope; the column is `Option Nat` so that a missing
value is observable. -/
structure Transaction where
  id : Nat
  transaction_id : String
  customer_id : Option Nat
  bill_ref : String
  ref_type : String
  amount : PyFloat
  msisdn : String
  merchant_msisdn : Option String
  payment_date : Nat
  currency : String
  status : TransactionStatus
  airtel_reference : Option String
  mobiquity_reference : Option String
  raw_payload : String
  created_at : Nat
  updated_at : Nat
deriving DecidableEq, Repr

/-- `ValidationResult` row (`app/models/validation.py`). -/
structure ValidationResult where
  id : Nat
  transaction_id : Nat
  is_valid : Bool
  validation_message : Option String
  validation_date : Nat
deriving DecidableEq, Repr

/-- `ProcessingResult` row (`app/models/processing.py`). -/
structure ProcessingResult where
  id : Nat
  transaction_id : Nat
  is_processed : Bool
  processing_message : Option String
  processing_date : Nat
deriving DecidableEq, Repr

/-- The persistent store. -/
structure DB where
  customers : List Customer
  transactions : List Transaction
  validation_results : List ValidationResult
  processing_results : List ProcessingResult
  nextTransactionPk : Nat
  nextValidationPk : Nat
  nextProcessingPk : Nat
deriving DecidableEq, Repr

/-- Mutate the first row with primary key `pk`, as the ORM session does with
the single identity-mapped object returned by `get_transaction_by_id`. -/
def updateFirstByPk (l : List Transaction) (pk : Nat)
    (f : Transaction → Transaction) : List Transaction :=
  match l with
  | [] => []
  | t :: rest => if t.id = pk then f t :: rest else t :: updateFirstByPk rest pk f

/-! ## Repositories (`app/models/repository.py`) -/

namespace TransactionRepository

/-- The `transaction_data` dict built by `validate_ipn`
(`app/api/validate.py` lines 162-172). -/
structure TransactionData where
  transaction_id : String
  customer_id : Nat
  bill_ref : String
  ref_type : String
  amount : PyFloat
  msisdn : String
  merchant_msisdn : Option String
  airtel_reference : String
  raw_payload : String
deriving DecidableEq, Repr

/-- `TransactionRepository.create_transaction`: constructs the row from the
dict. The source passes only `transaction_id`, `bill_ref`, `ref_type`,
`amount`, `msisdn`, `payment_date`, `currency`, `status` and `raw_payload`
to `Transaction(...)`; the dict's `customer_id`, `merchant_msisdn` and
`airtel_reference` entries are not forwarded, so those columns keep their
defaults (`None`). -/
def create_transaction (db : DB) (now : Nat) (td : TransactionData) :
    DB × Transaction :=
  let t : Transaction :=
    { id := db.nextTransactionPk
      transaction_id := td.transaction_id
      customer_id := none
      bill_ref := td.bill_ref
      ref_type := td.ref_type
      amount := td.amount
      msisdn := td.msisdn
      merchant_msisdn := none
      payment_date := now
      currency := "KES"
      status := .PENDING
      airtel_reference := none
      mobiquity_reference := none
      raw_payload := td.raw_payload
      created_at := now
      updated_at := now }
  ({ db with
      transactions := db.transactions ++ [t]
      nextTransactionPk := db.nextTransactionPk + 1 }, t)

/-- `get_transaction_by_id`. -/
def get_transaction_by_id (db : DB) (pk : Nat) : Option Transaction :=
  db.transactions.find? (fun t => t.id = pk)

/-- `get_transaction_by_transaction_id`. -/
def get_transaction_by_transaction_id (db : DB) (transaction_id : String) :
    Option Transaction :=
  db.transactions.find? (fun t => t.transaction_id = transaction_id)

/-- `update_transaction_status`: look the row up by primary key; if found,
set its status and refresh `updated_at`. -/
def update_transaction_status (db : DB) (now : Nat) (pk : Nat)
    (status : TransactionStatus) : DB × Option Transaction :=
  match get_transaction_by_id db pk with
  | none => (db, none)
  | some t =>
    let t' := { t with status := status, updated_at := now }
    ({ db with
        transactions := updateFirstByPk db.transactions pk
          (fun u => { u with status := status, updated_at := now }) },
      some t')

end TransactionRepository

namespace ValidationResultRepository

/-- `create_validation_result`: append the audit row, then flip the
transaction's status to `VALIDATED`/`FAILED` according to `is_valid`. -/
def create_validation_result (db : DB) (now : Nat) (transaction_pk : Nat)
    (is_valid : Bool) (message : Option String) : DB × ValidationResult :=
  let vr : ValidationResult :=
    { id := db.nextValidationPk
      transaction_id := transaction_pk
      is_valid := is_valid
      validation_message := message
      validation_date := now }
  let db1 := { db with
    validation_results := db.validation_results ++ [vr]
    nextValidationPk := db.nextValidationPk + 1 }
  match TransactionRepository.get_transaction_by_id db1 transaction_pk with
  | some _ =>
    let new_status : TransactionStatus := if is_valid then .VALIDATED else .FAILED
    ((TransactionRepository.update_transaction_status db1 now transaction_pk
        new_status).1, vr)
  | none => (db1, vr)

end ValidationResultRepository

namespace ProcessingResultRepository

/-- `create_processing_result`: append the audit row, then flip the
transaction's status to `PROCESSED`/`FAILED` according to `is_processed`. -/
def create_processing_result (db : DB) (now : Nat) (transaction_pk : Nat)
    (is_processed : Bool) (message : Option String) : DB × ProcessingResult :=
  let pr : ProcessingResult :=
    { id := db.nextProcessingPk
      transaction_id := transaction_pk
      is_processed := is_processed
      processing_message := message
      processing_date := now }
  let db1 := { db with
    processing_results := db.processing_results ++ [pr]
    nextProcessingPk := db.nextProcessingPk + 1 }
  match TransactionRepository.get_transaction_by_id db1 transaction_pk with
  | some _ =>
    let new_status : TransactionStatus :=
      if is_processed then .PROCESSED else .FAILED
    ((TransactionRepository.update_transaction_status db1 now transaction_pk
        new_status).1, pr)
  | none => (db1, pr)

end ProcessingResultRepository

/-! ## Endpoint replies -/

/-- A JSON reply value: a string field, an echoed float, or `null`. -/
inductive JsonValue where
  | str (s : String)
  | num (x : PyFloat)
  | null
deriving DecidableEq, Repr

/-- A reply object as returned by `create_response`: either the markup body
(`{"content": ..., "media_type": "application/xml"}`) or the key-value
object (`status`, `message`, `transactionId`, plus merged extra data). -/
inductive Resp where
  | xmlContent (content : String)
  | jsonObj (status message : String) (transactionId : Option String)
      (extra : List (String × JsonValue))
deriving DecidableEq, Repr

/-- The wire format detected from the request body. -/
inductive WireFormat where
  | xml
  | json
deriving DecidableEq, Repr

def Resp.isXml : Resp → Bool
  | .xmlContent _ => true
  | .jsonObj _ _ _ _ => false

/-- Python truthiness of a field value: `None` and `""` are falsy. -/
def truthy (v : Option String) : Bool :=
  match v with
  | none => false
  | some s => s ≠ ""

/-- f-string rendering of an `Optional[str]`. -/
def pyStrOfOpt (v : Option String) : String :=
  match v with
  | some s => s
  | none => "None"

/-- `payload.get(k, d)`: the default only applies when the key is absent. -/
def getFieldD (p : Payload) (k d : String) : Option String :=
  match (p.filter (fun e => e.1 = k)).getLast? with
  | none => some d
  | some e => e.2

/-! ## Validate endpoint (`app/api/validate.py`) -/

namespace ValidateApi

/-- `create_response` from `app/api/validate.py`. -/
def create_response (format_type : WireFormat) (status message : String)
    (transaction_id : Option String) : Resp :=
  match format_type with
  | .xml => .xmlContent (xmlReplyContent status message)
  | .json => .jsonObj status message transaction_id []

/-- `verify_customer`: chained query filters compose conjunctively, the
`ref_type` filter is applied only when `ref_type` is supplied, and
`.first()` returns the first matching row. `Customer.status == "ACTIVE"`
compares the stored enum name, i.e. selects `ACTIVE` rows. -/
def verify_customer (db : DB) (bill_ref : String) (ref_type : Option String)
    (msisdn : String) : Option Customer :=
  db.customers.find? (fun c =>
    c.bill_ref = bill_ref &&
    (match ref_type with
     | some rt => c.ref_type = rt
     | none => true) &&
    c.msisdn = msisdn &&
    c.status = CustomerStatus.ACTIVE)

/-- The `ref_type` determination in `validate_ipn`: only when the payload
carries `TYPE == "C2B"`, infer from the bill-reference prefix
(`INV`/`MTR`/`POL`/`MSI`, else `ACCOUNT`). -/
def inferredRefType (bill_ref : Option String) : String :=
  if truthy bill_ref && pyStartsWith (bill_ref.getD "") "INV" then "INVOICE"
  else if truthy bill_ref && pyStartsWith (bill_ref.getD "") "MTR" then "METER"
  else if truthy bill_ref && pyStartsWith (bill_ref.getD "") "POL" then "POLICY"
  else if truthy bill_ref && pyStartsWith (bill_ref.getD "") "MSI" then "MSISDN"
  else "ACCOUNT"

/-- The `ref_type` of a request: inferred only when the payload carries
`TYPE == "C2B"`, otherwise left unset. -/
def requestRefType (payload : Payload) : Option String :=
  if fieldEquals payload "TYPE" "C2B" then
    some (inferredRefType (getField payload "REFERENCE"))
  else none

/-- The reference-type guard clause of `validate_ipn`: when a `ref_type`
was determined, run `validate_ref_type` and produce the failure message if
it rejects; no message means control continues. -/
def ref_type_check (ref_type : Option String) : Option String :=
  match ref_type with
  | some rt =>
    let (ref_type_valid, ref_type_error) := validate_ref_type rt
    if !ref_type_valid then
      some ("Invalid reference type: " ++ pyStrOfOpt ref_type_error)
    else none
  | none => none

/-- The body of `validate_ipn` after format detection and decoding.
`body_str` is the raw request body (stored as `raw_payload`); the final
`pyFloat?` mismatch models the `ValueError` of `float(amount)` escaping to
the endpoint's blanket `except` handler, which always replies in markup
format. -/
def validate_core (now : Nat) (db : DB) (response_format : WireFormat)
    (payload : Payload) (body_str : String) : DB × Resp :=
  let transaction_id := getField payload "REFERENCE1"
  let bill_ref := getField payload "REFERENCE"
  let amount := getField payload "AMOUNT"
  let msisdn := getField payload "CUSTOMERMSISDN"
  let merchant_msisdn := getField payload "MERCHANTMSISDN"
  let ref_type : Option String := requestRefType payload
  if !(truthy transaction_id && truthy bill_ref && truthy amount && truthy msisdn) then
    (db, create_response response_format "FAILED" "Missing required fields"
      transaction_id)
  else
    let bref := bill_ref.getD ""
    let (bill_ref_valid, bill_ref_error) := validate_bill_ref bref
    if !bill_ref_valid then
      (db, create_response response_format "FAILED"
        ("Invalid bill reference: " ++ pyStrOfOpt bill_ref_error) transaction_id)
    else
      match ref_type_check ref_type with
      | some msg =>
        (db, create_response response_format "FAILED" msg transaction_id)
      | none =>
        match verify_customer db bref ref_type (msisdn.getD "") with
        | none =>
          (db, create_response response_format "FAILED"
            "Customer not found or inactive" transaction_id)
        | some customer =>
          match TransactionRepository.get_transaction_by_transaction_id db
              (transaction_id.getD "") with
          | some _ =>
            (db, create_response response_format "FAILED"
              "Transaction already processed" transaction_id)
          | none =>
            match pyFloat? (amount.getD "") with
            | none =>
              (db, create_response .xml "FAILED"
                ("Internal server error: could not convert string to float: '"
                  ++ amount.getD "" ++ "'")
                (getFieldD payload "REFERENCE1" "unknown"))
            | some amountF =>
              let td : TransactionRepository.TransactionData :=
                { transaction_id := transaction_id.getD ""
                  customer_id := customer.id
                  bill_ref := bref
                  ref_type := ref_type.getD "ACCOUNT"
                  amount := amountF
                  msisdn := msisdn.getD ""
                  merchant_msisdn := merchant_msisdn
                  airtel_reference := transaction_id.getD ""
                  raw_payload := body_str }
              let (db1, transaction) :=
                TransactionRepository.create_transaction db now td
              let db2 :=
                (ValidationResultRepository.create_validation_result db1 now
                  transaction.id true
                  (some "Transaction validated successfully")).1
              (db2, create_response response_format "SUCCESS"
                "Transaction validated successfully" transaction_id)

/-- `validate_ipn`: detect the wire format from the first non-whitespace
character, decode, run the core, and catch any decode failure with the
blanket handler (which defaults to markup format; at that point `payload`
is not a local, so the reported transaction id is `"unknown"`).
`str(HTTPException(400, d))` renders as `"400: " + d`. -/
def validate_ipn (now : Nat) (db : DB) (body_str : String) : DB × Resp :=
  if detectsMarkup body_str then
    match parse_xml_request body_str with
    | .error e =>
      (db, create_response .xml "FAILED"
        ("Internal server error: 400: Invalid XML format: " ++ e)
        (some "unknown"))
    | .ok payload => validate_core now db .xml payload body_str
  else
    match parse_json_request body_str with
    | .error e =>
      (db, create_response .xml "FAILED" ("Internal server error: " ++ e)
        (some "unknown"))
    | .ok payload => validate_core now db .json payload body_str

end ValidateApi

/-! ## Process endpoint (`app/api/process.py`) -/

namespace ProcessApi

/-- `create_response` from `app/api/process.py` (with `additional_data`). -/
def create_response (format_type : WireFormat) (status message : String)
    (transaction_id : String) (additional_data : List (String × JsonValue)) :
    Resp :=
  match format_type with
  | .xml => .xmlContent (xmlReplyContent status message)
  | .json => .jsonObj status message (some transaction_id) additional_data

/-- `process_payment`: records a successful `ProcessingResult` (the payment
step is simulated; no downstream failure signal exists). The f-string
renders the float by its modelled source text. -/
def process_payment (now : Nat) (db : DB) (transaction : Transaction)
    (customer : Customer) : DB × ProcessingResult :=
  let processing_message :=
    "Payment of " ++ transaction.amount.repr ++ " " ++ transaction.currency ++
      " processed for " ++ customer.full_name
  ProcessingResultRepository.create_processing_result db now transaction.id
    true (some processing_message)

/-- The customer re-verification query
`db.query(Customer).filter(Customer.id == transaction.customer_id).first()`:
when `customer_id` is `NULL` the filter compares against `NULL` and matches
no row. -/
def customerLookup (db : DB) (transaction : Transaction) : Option Customer :=
  match transaction.customer_id with
  | some cid => db.customers.find? (fun c => c.id = cid)
  | none => none

/-- The body of `process_ipn` after format detection and decoding. -/
def process_core (now : Nat) (db : DB) (response_format : WireFormat)
    (payload : Payload) : DB × Resp :=
  let transaction_id := getField payload "REFERENCE1"
  let reference2 := getField payload "REFERENCE2"
  if !(truthy transaction_id) then
    (db, create_response response_format "FAILED" "Missing transaction ID"
      "unknown" [])
  else
    let tid := transaction_id.getD ""
    match TransactionRepository.get_transaction_by_transaction_id db tid with
    | none =>
      (db, create_response response_format "FAILED" "Transaction not found"
        tid [])
    | some transaction =>
      if transaction.status = .PROCESSED then
        (db, create_response response_format "SUCCESS"
          "Transaction already processed" tid [])
      else if transaction.status ≠ .VALIDATED then
        (db, create_response response_format "FAILED"
          "Transaction not validated" tid [])
      else
        match customerLookup db transaction with
        | none =>
          (db, create_response response_format "FAILED"
            "Customer not found or inactive" tid [])
        | some customer =>
          if customer.status ≠ .ACTIVE then
            (db, create_response response_format "FAILED"
              "Customer not found or inactive" tid [])
          else
            let db1 :=
              if truthy reference2 then
                { db with
                  transactions := updateFirstByPk db.transactions
                    transaction.id
                    (fun t => { t with
                      mobiquity_reference := reference2
                      updated_at := now }) }
              else db
            let (db2, processing_result) :=
              process_payment now db1 transaction customer
            if !processing_result.is_processed then
              (db2, create_response response_format "FAILED"
                (match processing_result.processing_message with
                 | some m => if m = "" then "Payment processing failed" else m
                 | none => "Payment processing failed") tid [])
            else
              (db2, create_response response_format "SUCCESS"
                "Transaction processed successfully" tid
                [("billRef", .str transaction.bill_ref),
                 ("amount", .num transaction.amount),
                 ("currency", .str transaction.currency),
                 ("customerName", .str customer.full_name),
                 ("msisdn", .str customer.msisdn)])

/-- `process_ipn`: format detection, decoding and the blanket handler, as in
`validate_ipn`. -/
def process_ipn (now : Nat) (db : DB) (body_str : String) : DB × Resp :=
  if detectsMarkup body_str then
    match parse_xml_request body_str with
    | .error e =>
      (db, create_response .xml "FAILED"
        ("Internal server error: 400: Invalid XML format: " ++ e) "unknown" [])
    | .ok payload => process_core now db .xml payload
  else
    match parse_json_request body_str with
    | .error e =>
      (db, create_response .xml "FAILED" ("Internal server error: " ++ e)
        "unknown" [])
    | .ok payload => process_core now db .json payload

end ProcessApi

/-! ## Operation sequences over the store -/

/-- One inbound call: a validate or process request at a given clock time
with a raw body. -/
inductive Op where
  | validateOp (now : Nat) (body : String)
  | processOp (now : Nat) (body : String)

/-- Apply one inbound call to the store. -/
def applyOp (db : DB) : Op → DB × Resp
  | .validateOp now body => ValidateApi.validate_ipn now db body
  | .processOp now body => ProcessApi.process_ipn now db body

/-- Run a sequence of inbound calls. -/
def runOps (db : DB) (ops : List Op) : DB :=
  ops.foldl (fun d op => (applyOp d op).1) db

/-! ## Specification vocabulary -/

/-- The lifecycle edges §4.3 allows (reflexively): forward motion along
`PENDING → VALIDATED → PROCESSED`, a short-circuit to `FAILED` from a
non-terminal state, and no edge out of the terminal states `PROCESSED` and
`FAILED`. -/
def allowedTransition : TransactionStatus → TransactionStatus → Bool
  | .PENDING, _ => true
  | .VALIDATED, .PENDING => false
  | .VALIDATED, _ => true
  | .PROCESSED, .PROCESSED => true
  | .PROCESSED, _ => false
  | .FAILED, .FAILED => true
  | .FAILED, _ => false

/-- Store sanity maintained by the autoincrement primary key: every stored
transaction's key is below the next key to be issued, and keys are
distinct. -/
def DBWellFormed (db : DB) : Prop :=
  (∀ t ∈ db.transactions, t.id < db.nextTransactionPk) ∧
    (db.transactions.map (fun t => t.id)).Nodup

/-- A character that survives the unescaped markup template: an XML `Char`
that is not markup-significant (`<`, `&`), not a bare carriage return
(normalised to `\n` on re-parse) and not `]` (to keep clear of the
forbidden `]]>` sequence). -/
def xmlSafeChar (c : Char) : Bool :=
  isXmlChar c && c ≠ '<' && c ≠ '&' && c ≠ '\r' && c ≠ ']'

/-- A status/message string whose markup rendering survives a re-parse:
nonempty (an empty element's text reads back as `None`) and made of safe
characters. -/
def xmlSafeText (s : String) : Bool :=
  s ≠ "" && s.data.all xmlSafeChar

/-! ## Concrete fixtures -/

/-- An active directory customer matching the sample notification. -/
def sampleCustomer : Customer :=
  { id := 1
    bill_ref := "ACC123456"
    ref_type := "ACCOUNT"
    msisdn := "254712345678"
    full_name := "John Doe"
    email := none
    id_number := none
    address := none
    status := .ACTIVE
    created_at := 0
    updated_at := 0 }

/-- A stored transaction for `TRX1` in the given lifecycle state. -/
def sampleTxn (status : TransactionStatus) : Transaction :=
  { id := 7
    transaction_id := "TRX1"
    customer_id := some 1
    bill_ref := "ACC123456"
    ref_type := "ACCOUNT"
    amount := ⟨"1000.00"⟩
    msisdn := "254712345678"
    merchant_msisdn := none
    payment_date := 3
    currency := "KES"
    status := status
    airtel_reference := none
    mobiquity_reference := none
    raw_payload := "{}"
    created_at := 3
    updated_at := 3 }

/-- A store holding the sample customer and the given transactions. -/
def dbWith (ts : List Transaction) : DB :=
  { customers := [sampleCustomer]
    transactions := ts
    validation_results := []
    processing_results := []
    nextTransactionPk := 10
    nextValidationPk := 1
    nextProcessingPk := 1 }

/-- The scenario-1 validate body (key-value format). -/
def sampleValidateBody : String :=
  "\x7b\"TYPE\": \"C2B\", \"CUSTOMERMSISDN\": \"254712345678\", \"MERCHANTMSISDN\": \"254700000000\", \"AMOUNT\": \"1000.00\", \"REFERENCE\": \"ACC123456\", \"REFERENCE1\": \"TRX1\"\x7d"

/-- A process body for `TRX1` (key-value format). -/
def sampleProcessBody : String :=
  "\x7b\"REFERENCE1\": \"TRX1\", \"REFERENCE2\": \"MOB1\"\x7d"

/-- A well-formed key-value validate body whose `AMOUNT` is not a number, so
`float(amount)` raises after the format has been detected as key-value. -/
def sampleBadAmountBody : String :=
  "\x7b\"TYPE\": \"C2B\", \"CUSTOMERMSISDN\": \"254712345678\", \"AMOUNT\": \"abc\", \"REFERENCE\": \"ACC123456\", \"REFERENCE1\": \"TRX9\"\x7d"

/-- The decoded form of `sampleValidateBody`. -/
def sampleValidatePayload : Payload :=
  [("TYPE", some "C2B"), ("CUSTOMERMSISDN", some "254712345678"),
   ("MERCHANTMSISDN", some "254700000000"), ("AMOUNT", some "1000.00"),
   ("REFERENCE", some "ACC123456"), ("REFERENCE1", some "TRX1")]

/-- The decoded form of `sampleBadAmountBody`. -/
def sampleBadAmountPayload : Payload :=
  [("TYPE", some "C2B"), ("CUSTOMERMSISDN", some "254712345678"),
   ("AMOUNT", some "abc"), ("REFERENCE", some "ACC123456"),
   ("REFERENCE1", some "TRX9")]

/-- Whether a decode attempt succeeded. -/
def exceptOk {ε α : Type} : Except ε α → Bool
  | .ok _ => true
  | .error _ => false

/-- The `transaction_data` dict assembled on the success path. -/
def successTd (p : Payload) (tid bref msi : String) (a : PyFloat)
    (body : String) (c : Customer) : TransactionRepository.TransactionData :=
  { transaction_id := tid
    customer_id := c.id
    bill_ref := bref
    ref_type := (ValidateApi.requestRefType p).getD "ACCOUNT"
    amount := a
    msisdn := msi
    merchant_msisdn := getField p "MERCHANTMSISDN"
    airtel_reference := tid
    raw_payload := body }

/-- The row `create_transaction` stores for the success path. -/

def storedTxn (db : DB) (now : Nat) (p : Payload) (tid bref msi : String)
    (a : PyFloat) (body : String) : Transaction :=
  { id := db.nextTransactionPk
    transaction_id := tid
    customer_id := none
    bill_ref := bref
    ref_type := (ValidateApi.requestRefType p).getD "ACCOUNT"
    amount := a
    msisdn := msi
    merchant_msisdn := none
    payment_date := now
    currency := "KES"
    status := .PENDING
    airtel_reference := none
    mobiquity_reference := none
    raw_payload := body
    created_at := now
    updated_at := now }

/-- The audit row recorded on the success path. -/
def storedVr (db : DB) (now : Nat) (msg : Option String) : ValidationResult :=
  { id := db.nextValidationPk
    transaction_id := db.nextTransactionPk
    is_valid := true
    validation_message := msg
    validation_date := now }

/-- The store after a successful phase-1 validation. -/
def successDb (db : DB) (now : Nat) (p : Payload) (tid bref msi : String)
    (a : PyFloat) (body : String) : DB :=
  { db with
      transactions := db.transactions ++
        [{ storedTxn db now p tid bref msi a body with status := .VALIDATED }]
      validation_results := db.validation_results ++
        [storedVr db now (some "Transaction validated successfully")]
      nextTransactionPk := db.nextTransactionPk + 1
      nextValidationPk := db.nextValidationPk + 1 }

/-! ## Verification -/

/-! ### Helper facts for the phase-1 flow -/

theorem inferredRefType_valid (b : Option String) :
    (validate_ref_type (ValidateApi.inferredRefType b)).1 = true := by
  unfold ValidateApi.inferredRefType
  repeat' split
  all_goals decide

theorem requestRefType_valid (p : Payload) (rt : String)
    (h : ValidateApi.requestRefType p = some rt) :
    (validate_ref_type rt).1 = true := by
  unfold ValidateApi.requestRefType at h
  split at h
  · injection h with h'
    exact h' ▸ inferredRefType_valid _
  · cases h

theorem ref_type_check_requestRefType (p : Payload) :
    ValidateApi.ref_type_check (ValidateApi.requestRefType p) = none := by
  cases hre : ValidateApi.requestRefType p with
  | none => rfl
  | some rt =>
    unfold ValidateApi.ref_type_check
    simp [requestRefType_valid p rt hre]

theorem updateFirstByPk_append (l1 l2 : List Transaction) (pk : Nat)
    (f : Transaction → Transaction) (h : ∀ u ∈ l1, u.id ≠ pk) :
    updateFirstByPk (l1 ++ l2) pk f = l1 ++ updateFirstByPk l2 pk f := by
  induction l1 with
  | nil => rfl
  | cons t rest ih =>
    have ht : t.id ≠ pk := h t (by simp)
    simp only [List.cons_append, updateFirstByPk, if_neg ht]
    rw [show rest.append l2 = rest ++ l2 from rfl, ih (fun u hu => h u (by simp [hu]))]


theorem validate_core_success (now : Nat) (db : DB) (fmt : WireFormat)
    (p : Payload) (body : String) (tid bref amt msi : String) (c : Customer)
    (a : PyFloat)
    (h1 : getField p "REFERENCE1" = some tid) (h1' : tid ≠ "")
    (h2 : getField p "REFERENCE" = some bref) (h2' : bref ≠ "")
    (h3 : getField p "AMOUNT" = some amt) (h3' : amt ≠ "")
    (h4 : getField p "CUSTOMERMSISDN" = some msi) (h4' : msi ≠ "")
    (h5 : (validate_bill_ref bref).1 = true)
    (h6 : ValidateApi.verify_customer db bref (ValidateApi.requestRefType p) msi = some c)
    (h7 : TransactionRepository.get_transaction_by_transaction_id db tid = none)
    (h8 : pyFloat? amt = some a) :
    ValidateApi.validate_core now db fmt p body =
      ((ValidationResultRepository.create_validation_result
          (TransactionRepository.create_transaction db now
            (successTd p tid bref msi a body c)).1 now
          (TransactionRepository.create_transaction db now
            (successTd p tid bref msi a body c)).2.id true
          (some "Transaction validated successfully")).1,
        ValidateApi.create_response fmt "SUCCESS"
          "Transaction validated successfully" (some tid)) := by
  unfold ValidateApi.validate_core
  dsimp only
  rw [h1, h2, h3, h4]
  simp only [truthy, h1', h2', h3', h4', ne_eq, not_false_eq_true, decide_True,
    Bool.and_self, Bool.not_true, Bool.false_eq_true, if_false, Option.getD_some]
  simp only [h5, Bool.not_true, Bool.false_eq_true, if_false]
  rw [ref_type_check_requestRefType]
  rw [h6, h7, h8]
  rfl

theorem create_then_flip (db : DB) (now : Nat)
    (td : TransactionRepository.TransactionData) (msg : Option String)
    (hb : ∀ u ∈ db.transactions, u.id < db.nextTransactionPk) :
    (ValidationResultRepository.create_validation_result
        (TransactionRepository.create_transaction db now td).1 now
        (TransactionRepository.create_transaction db now td).2.id true msg).1 =
      { db with
          transactions := db.transactions ++
            [{ (TransactionRepository.create_transaction db now td).2 with
                status := .VALIDATED, updated_at := now }]
          validation_results := db.validation_results ++ [storedVr db now msg]
          nextTransactionPk := db.nextTransactionPk + 1
          nextValidationPk := db.nextValidationPk + 1 } := by
  have hne : ∀ u ∈ db.transactions,
      ¬ (decide (u.id = db.nextTransactionPk) = true) := by
    intro u hu
    simp only [decide_eq_true_eq]
    exact Nat.ne_of_lt (hb u hu)
  have hfind : TransactionRepository.get_transaction_by_id
      (TransactionRepository.create_transaction db now td).1
      db.nextTransactionPk =
      some (TransactionRepository.create_transaction db now td).2 := by
    unfold TransactionRepository.get_transaction_by_id
      TransactionRepository.create_transaction
    dsimp only
    rw [List.find?_append, List.find?_eq_none.2 hne]
    simp
  unfold ValidationResultRepository.create_validation_result
  dsimp only
  rw [show (TransactionRepository.create_transaction db now td).2.id =
      db.nextTransactionPk from rfl]
  have hfind' : TransactionRepository.get_transaction_by_id
      { (TransactionRepository.create_transaction db now td).1 with
          validation_results :=
            (TransactionRepository.create_transaction db now td).1.validation_results ++
              [⟨(TransactionRepository.create_transaction db now td).1.nextValidationPk,
                db.nextTransactionPk, true, msg, now⟩]
          nextValidationPk :=
            (TransactionRepository.create_transaction db now td).1.nextValidationPk + 1 }
      db.nextTransactionPk =
      some (TransactionRepository.create_transaction db now td).2 := hfind
  rw [hfind']
  unfold TransactionRepository.update_transaction_status
  rw [hfind']
  dsimp only
  unfold TransactionRepository.create_transaction
  dsimp only
  rw [updateFirstByPk_append _ _ _ _ (fun u hu => Nat.ne_of_lt (hb u hu))]
  simp only [updateFirstByPk, if_pos rfl]
  rfl

theorem validate_core_missing_fields (now : Nat) (db : DB) (fmt : WireFormat)
    (p : Payload) (body : String)
    (h : (truthy (getField p "REFERENCE1") && truthy (getField p "REFERENCE") &&
      truthy (getField p "AMOUNT") && truthy (getField p "CUSTOMERMSISDN")) = false) :
    ValidateApi.validate_core now db fmt p body =
      (db, ValidateApi.create_response fmt "FAILED" "Missing required fields"
        (getField p "REFERENCE1")) := by
  unfold ValidateApi.validate_core
  dsimp only
  simp [h]

theorem validate_core_bad_bill_ref (now : Nat) (db : DB) (fmt : WireFormat)
    (p : Payload) (body : String) (tid bref amt msi : String)
    (h1 : getField p "REFERENCE1" = some tid) (h1' : tid ≠ "")
    (h2 : getField p "REFERENCE" = some bref) (h2' : bref ≠ "")
    (h3 : getField p "AMOUNT" = some amt) (h3' : amt ≠ "")
    (h4 : getField p "CUSTOMERMSISDN" = some msi) (h4' : msi ≠ "")
    (h5 : (validate_bill_ref bref).1 = false) :
    ValidateApi.validate_core now db fmt p body =
      (db, ValidateApi.create_response fmt "FAILED"
        ("Invalid bill reference: " ++ pyStrOfOpt (validate_bill_ref bref).2)
        (some tid)) := by
  unfold ValidateApi.validate_core
  dsimp only
  rw [h1, h2, h3, h4]
  simp [truthy, h1', h2', h3', h4', h5]

theorem validate_core_no_customer (now : Nat) (db : DB) (fmt : WireFormat)
    (p : Payload) (body : String) (tid bref amt msi : String)
    (h1 : getField p "REFERENCE1" = some tid) (h1' : tid ≠ "")
    (h2 : getField p "REFERENCE" = some bref) (h2' : bref ≠ "")
    (h3 : getField p "AMOUNT" = some amt) (h3' : amt ≠ "")
    (h4 : getField p "CUSTOMERMSISDN" = some msi) (h4' : msi ≠ "")
    (h5 : (validate_bill_ref bref).1 = true)
    (h6 : ValidateApi.verify_customer db bref (ValidateApi.requestRefType p) msi = none) :
    ValidateApi.validate_core now db fmt p body =
      (db, ValidateApi.create_response fmt "FAILED"
        "Customer not found or inactive" (some tid)) := by
  unfold ValidateApi.validate_core
  dsimp only
  rw [h1, h2, h3, h4]
  simp only [truthy, h1', h2', h3', h4', ne_eq, not_false_eq_true, decide_True,
    Bool.and_self, Bool.not_true, Bool.false_eq_true, if_false, Option.getD_some]
  simp only [h5, Bool.not_true, Bool.false_eq_true, if_false]
  rw [ref_type_check_requestRefType, h6]

theorem validate_core_duplicate (now : Nat) (db : DB) (fmt : WireFormat)
    (p : Payload) (body : String) (tid bref amt msi : String) (c : Customer)
    (t0 : Transaction)
    (h1 : getField p "REFERENCE1" = some tid) (h1' : tid ≠ "")
    (h2 : getField p "REFERENCE" = some bref) (h2' : bref ≠ "")
    (h3 : getField p "AMOUNT" = some amt) (h3' : amt ≠ "")
    (h4 : getField p "CUSTOMERMSISDN" = some msi) (h4' : msi ≠ "")
    (h5 : (validate_bill_ref bref).1 = true)
    (h6 : ValidateApi.verify_customer db bref (ValidateApi.requestRefType p) msi = some c)
    (h7 : TransactionRepository.get_transaction_by_transaction_id db tid = some t0) :
    ValidateApi.validate_core now db fmt p body =
      (db, ValidateApi.create_response fmt "FAILED"
        "Transaction already processed" (some tid)) := by
  unfold ValidateApi.validate_core
  dsimp only
  rw [h1, h2, h3, h4]
  simp only [truthy, h1', h2', h3', h4', ne_eq, not_false_eq_true, decide_True,
    Bool.and_self, Bool.not_true, Bool.false_eq_true, if_false, Option.getD_some]
  simp only [h5, Bool.not_true, Bool.false_eq_true, if_false]
  rw [ref_type_check_requestRefType, h6, h7]

theorem validate_core_success_state (now : Nat) (db : DB) (fmt : WireFormat)
    (p : Payload) (body : String) (tid bref amt msi : String) (c : Customer)
    (a : PyFloat)
    (h1 : getField p "REFERENCE1" = some tid) (h1' : tid ≠ "")
    (h2 : getField p "REFERENCE" = some bref) (h2' : bref ≠ "")
    (h3 : getField p "AMOUNT" = some amt) (h3' : amt ≠ "")
    (h4 : getField p "CUSTOMERMSISDN" = some msi) (h4' : msi ≠ "")
    (h5 : (validate_bill_ref bref).1 = true)
    (h6 : ValidateApi.verify_customer db bref (ValidateApi.requestRefType p) msi = some c)
    (h7 : TransactionRepository.get_transaction_by_transaction_id db tid = none)
    (h8 : pyFloat? amt = some a)
    (hb : ∀ u ∈ db.transactions, u.id < db.nextTransactionPk) :
    ValidateApi.validate_core now db fmt p body =
      (successDb db now p tid bref msi a body,
        ValidateApi.create_response fmt "SUCCESS"
          "Transaction validated successfully" (some tid)) := by
  rw [validate_core_success now db fmt p body tid bref amt msi c a
    h1 h1' h2 h2' h3 h3' h4 h4' h5 h6 h7 h8]
  rw [create_then_flip db now _ _ hb]
  rfl

theorem successDb_dup (db : DB) (now : Nat) (p : Payload)
    (tid bref msi : String) (a : PyFloat) (body : String)
    (h7 : TransactionRepository.get_transaction_by_transaction_id db tid = none) :
    TransactionRepository.get_transaction_by_transaction_id
        (successDb db now p tid bref msi a body) tid =
      some { storedTxn db now p tid bref msi a body with status := .VALIDATED } := by
  unfold TransactionRepository.get_transaction_by_transaction_id at h7 ⊢
  show (db.transactions ++ [_]).find? _ = _
  rw [List.find?_append, h7]
  simp [storedTxn]

theorem successDb_count (db : DB) (now : Nat) (p : Payload)
    (tid bref msi : String) (a : PyFloat) (body : String)
    (h7 : TransactionRepository.get_transaction_by_transaction_id db tid = none) :
    ((successDb db now p tid bref msi a body).transactions.filter
      (fun u => u.transaction_id = tid)).length = 1 := by
  unfold TransactionRepository.get_transaction_by_transaction_id at h7
  have hnil : db.transactions.filter (fun u => u.transaction_id = tid) = [] := by
    rw [List.filter_eq_nil_iff]
    exact List.find?_eq_none.1 h7
  show ((db.transactions ++ [_]).filter _).length = 1
  rw [List.filter_append, hnil]
  simp [storedTxn]

set_option maxRecDepth 8000 in
/-- C4 counterexample: the request decoded from `sampleBadAmountBody`
passes all five checks of the claim (required fields present, bill
reference syntactically valid, reference type valid, active customer
matched, no existing transaction with the external id), yet no transaction
is created and the reply is a `FAILED` internal error, not `SUCCESS`:
`float(amount)` raises only after the checks, inside the success path. -/
theorem c4_phase1_success_counterexample :
    parse_json_request sampleBadAmountBody = .ok sampleBadAmountPayload ∧
    (truthy (getField sampleBadAmountPayload "REFERENCE1") &&
     truthy (getField sampleBadAmountPayload "REFERENCE") &&
     truthy (getField sampleBadAmountPayload "AMOUNT") &&
     truthy (getField sampleBadAmountPayload "CUSTOMERMSISDN")) = true ∧
    (validate_bill_ref "ACC123456").1 = true ∧
    ValidateApi.ref_type_check
      (ValidateApi.requestRefType sampleBadAmountPayload) = none ∧
    ValidateApi.verify_customer (dbWith []) "ACC123456"
      (ValidateApi.requestRefType sampleBadAmountPayload) "254712345678" =
      some sampleCustomer ∧
    TransactionRepository.get_transaction_by_transaction_id (dbWith [])
      "TRX9" = none ∧
    ValidateApi.validate_ipn 0 (dbWith []) sampleBadAmountBody =
      ((dbWith []), ValidateApi.create_response .xml "FAILED"
        "Internal server error: could not convert string to float: 'abc'"
        (some "TRX9")) := by
  exact ⟨rfl, rfl, rfl, rfl, rfl, rfl, by rfl⟩

/-- C4 (amended): Phase-1 success path. When all five checks pass (fields
present, bill reference syntactically valid, reference type valid, an
active customer matched, no existing transaction with the external id)
and additionally the amount converts to a float, the transaction is
created with status `PENDING`, a successful `ValidationResult` is
recorded which flips the stored row to `VALIDATED`, and the reply is
`SUCCESS`. -/
theorem c4_phase1_success_amended (now : Nat) (db : DB) (fmt : WireFormat)
    (p : Payload) (body : String) (tid bref amt msi : String) (c : Customer)
    (a : PyFloat)
    (h1 : getField p "REFERENCE1" = some tid) (h1' : tid ≠ "")
    (h2 : getField p "REFERENCE" = some bref) (h2' : bref ≠ "")
    (h3 : getField p "AMOUNT" = some amt) (h3' : amt ≠ "")
    (h4 : getField p "CUSTOMERMSISDN" = some msi) (h4' : msi ≠ "")
    (h5 : (validate_bill_ref bref).1 = true)
    (h6 : ValidateApi.verify_customer db bref (ValidateApi.requestRefType p) msi = some c)
    (h7 : TransactionRepository.get_transaction_by_transaction_id db tid = none)
    (h8 : pyFloat? amt = some a)
    (hwf : DBWellFormed db) :
    (TransactionRepository.create_transaction db now
        (successTd p tid bref msi a body c)).2.status = .PENDING ∧
    ValidateApi.validate_core now db fmt p body =
      (successDb db now p tid bref msi a body,
        ValidateApi.create_response fmt "SUCCESS"
          "Transaction validated successfully" (some tid)) :=
  ⟨rfl, validate_core_success_state now db fmt p body tid bref amt msi c a
    h1 h1' h2 h2' h3 h3' h4 h4' h5 h6 h7 h8 hwf.1⟩

set_option maxRecDepth 8000 in
/-- Witness for C4 at the scenario-1 request against the sample store. -/
theorem c4_phase1_success_amended_witness :
    (ValidateApi.validate_core 5 (dbWith []) .json sampleValidatePayload
        sampleValidateBody).2 =
      ValidateApi.create_response .json "SUCCESS"
        "Transaction validated successfully" (some "TRX1") := by
  have h := (c4_phase1_success_amended 5 (dbWith []) .json sampleValidatePayload sampleValidateBody
    "TRX1" "ACC123456" "1000.00" "254712345678" sampleCustomer ⟨"1000.00"⟩
    (by rfl) (by decide) (by rfl) (by decide) (by rfl) (by decide) (by rfl) (by decide)
    (by decide) (by decide) (by rfl) (by rfl) ⟨by decide, by decide⟩).2
  rw [h]

/-- C3: Phase-1 check order and failure atomicity. The validate core runs
field-presence, bill-reference syntax, reference-type validity, customer
lookup and duplicate detection in that order, each short-circuiting with its
specific `FAILED` message and leaving the store untouched (the
reference-type check never rejects, because every inferred type is a member
of the allowed set, so it passes control to the customer lookup); and
validating the same external id twice yields a success then a
"Transaction already processed" failure, with exactly one stored
transaction row carrying that external id. -/
theorem c3_phase1_check_order (now now' : Nat) (db : DB) (fmt : WireFormat)
    (p : Payload) (body : String) :
    ((truthy (getField p "REFERENCE1") && truthy (getField p "REFERENCE") &&
        truthy (getField p "AMOUNT") && truthy (getField p "CUSTOMERMSISDN")) = false →
      ValidateApi.validate_core now db fmt p body =
        (db, ValidateApi.create_response fmt "FAILED" "Missing required fields"
          (getField p "REFERENCE1"))) ∧
    (∀ tid bref amt msi,
      getField p "REFERENCE1" = some tid → tid ≠ "" →
      getField p "REFERENCE" = some bref → bref ≠ "" →
      getField p "AMOUNT" = some amt → amt ≠ "" →
      getField p "CUSTOMERMSISDN" = some msi → msi ≠ "" →
      (validate_bill_ref bref).1 = false →
      ValidateApi.validate_core now db fmt p body =
        (db, ValidateApi.create_response fmt "FAILED"
          ("Invalid bill reference: " ++ pyStrOfOpt (validate_bill_ref bref).2)
          (some tid))) ∧
    (∀ rt, ValidateApi.requestRefType p = some rt →
      (validate_ref_type rt).1 = true) ∧
    (∀ tid bref amt msi,
      getField p "REFERENCE1" = some tid → tid ≠ "" →
      getField p "REFERENCE" = some bref → bref ≠ "" →
      getField p "AMOUNT" = some amt → amt ≠ "" →
      getField p "CUSTOMERMSISDN" = some msi → msi ≠ "" →
      (validate_bill_ref bref).1 = true →
      ValidateApi.verify_customer db bref (ValidateApi.requestRefType p) msi = none →
      ValidateApi.validate_core now db fmt p body =
        (db, ValidateApi.create_response fmt "FAILED"
          "Customer not found or inactive" (some tid))) ∧
    (∀ tid bref amt msi c t0,
      getField p "REFERENCE1" = some tid → tid ≠ "" →
      getField p "REFERENCE" = some bref → bref ≠ "" →
      getField p "AMOUNT" = some amt → amt ≠ "" →
      getField p "CUSTOMERMSISDN" = some msi → msi ≠ "" →
      (validate_bill_ref bref).1 = true →
      ValidateApi.verify_customer db bref (ValidateApi.requestRefType p) msi = some c →
      TransactionRepository.get_transaction_by_transaction_id db tid = some t0 →
      ValidateApi.validate_core now db fmt p body =
        (db, ValidateApi.create_response fmt "FAILED"
          "Transaction already processed" (some tid))) ∧
    (∀ tid bref amt msi c a,
      getField p "REFERENCE1" = some tid → tid ≠ "" →
      getField p "REFERENCE" = some bref → bref ≠ "" →
      getField p "AMOUNT" = some amt → amt ≠ "" →
      getField p "CUSTOMERMSISDN" = some msi → msi ≠ "" →
      (validate_bill_ref bref).1 = true →
      ValidateApi.verify_customer db bref (ValidateApi.requestRefType p) msi = some c →
      TransactionRepository.get_transaction_by_transaction_id db tid = none →
      pyFloat? amt = some a →
      DBWellFormed db →
      ValidateApi.validate_core now db fmt p body =
        (successDb db now p tid bref msi a body,
          ValidateApi.create_response fmt "SUCCESS"
            "Transaction validated successfully" (some tid)) ∧
      ValidateApi.validate_core now' (successDb db now p tid bref msi a body)
          fmt p body =
        (successDb db now p tid bref msi a body,
          ValidateApi.create_response fmt "FAILED"
            "Transaction already processed" (some tid)) ∧
      ((successDb db now p tid bref msi a body).transactions.filter
        (fun u => u.transaction_id = tid)).length = 1) := by
  refine ⟨validate_core_missing_fields now db fmt p body,
    fun tid bref amt msi h1 h1' h2 h2' h3 h3' h4 h4' h5 =>
      validate_core_bad_bill_ref now db fmt p body tid bref amt msi
        h1 h1' h2 h2' h3 h3' h4 h4' h5,
    requestRefType_valid p,
    fun tid bref amt msi h1 h1' h2 h2' h3 h3' h4 h4' h5 h6 =>
      validate_core_no_customer now db fmt p body tid bref amt msi
        h1 h1' h2 h2' h3 h3' h4 h4' h5 h6,
    fun tid bref amt msi c t0 h1 h1' h2 h2' h3 h3' h4 h4' h5 h6 h7 =>
      validate_core_duplicate now db fmt p body tid bref amt msi c t0
        h1 h1' h2 h2' h3 h3' h4 h4' h5 h6 h7,
    ?_⟩
  intro tid bref amt msi c a h1 h1' h2 h2' h3 h3' h4 h4' h5 h6 h7 h8 hwf
  refine ⟨validate_core_success_state now db fmt p body tid bref amt msi c a
      h1 h1' h2 h2' h3 h3' h4 h4' h5 h6 h7 h8 hwf.1, ?_,
    successDb_count db now p tid bref msi a body h7⟩
  exact validate_core_duplicate now' (successDb db now p tid bref msi a body)
    fmt p body tid bref amt msi c _ h1 h1' h2 h2' h3 h3' h4 h4' h5 h6
    (successDb_dup db now p tid bref msi a body h7)

set_option maxRecDepth 8000 in
/-- Witness for C3: the missing-fields branch on an empty payload, and the
single-row property after a successful validation. -/
theorem c3_phase1_check_order_witness :
    ValidateApi.validate_core 0 (dbWith []) .json [] "" =
      ((dbWith []), ValidateApi.create_response .json "FAILED"
        "Missing required fields" none) ∧
    ((successDb (dbWith []) 5 sampleValidatePayload "TRX1" "ACC123456"
        "254712345678" ⟨"1000.00"⟩ sampleValidateBody).transactions.filter
      (fun u => u.transaction_id = "TRX1")).length = 1 := by
  constructor
  · exact (c3_phase1_check_order 0 0 (dbWith []) .json [] "").1 (by decide)
  · exact ((c3_phase1_check_order 5 6 (dbWith []) .json sampleValidatePayload sampleValidateBody).2.2.2.2.2
      "TRX1" "ACC123456" "1000.00" "254712345678" sampleCustomer ⟨"1000.00"⟩
      (by rfl) (by decide) (by rfl) (by decide) (by rfl) (by decide) (by rfl) (by decide)
      (by decide) (by decide) (by rfl) (by rfl) ⟨by decide, by decide⟩).2.2
/-! ### Lifecycle invariant machinery -/

theorem allowedTransition_rfl (s : TransactionStatus) :
    allowedTransition s s = true := by cases s <;> rfl

theorem allowedTransition_trans {a b c : TransactionStatus}
    (h1 : allowedTransition a b = true) (h2 : allowedTransition b c = true) :
    allowedTransition a c = true := by
  cases a <;> cases b <;> cases c <;> simp_all [allowedTransition]

theorem updateFirstByPk_mem (l : List Transaction) (pk : Nat)
    (f : Transaction → Transaction) :
    ∀ t ∈ l, t ∈ updateFirstByPk l pk f ∨
      (t.id = pk ∧ f t ∈ updateFirstByPk l pk f) := by
  induction l with
  | nil => intro t ht; cases ht
  | cons u rest ih =>
    intro t ht
    rcases List.mem_cons.1 ht with rfl | ht
    · by_cases hu : t.id = pk
      · simp only [updateFirstByPk, if_pos hu]
        right; exact ⟨hu, List.mem_cons_self _ _⟩
      · simp only [updateFirstByPk, if_neg hu]
        left; exact List.mem_cons_self _ _
    · by_cases hu : u.id = pk
      · simp only [updateFirstByPk, if_pos hu]
        left; exact List.mem_cons_of_mem _ ht
      · simp only [updateFirstByPk, if_neg hu]
        rcases ih t ht with h | ⟨hid, hf⟩
        · left; exact List.mem_cons_of_mem _ h
        · right; exact ⟨hid, List.mem_cons_of_mem _ hf⟩

theorem updateFirstByPk_mem_rev (l : List Transaction) (pk : Nat)
    (f : Transaction → Transaction) :
    ∀ u ∈ updateFirstByPk l pk f, ∃ t, t ∈ l ∧ (u = t ∨ (t.id = pk ∧ u = f t)) := by
  induction l with
  | nil => intro u hu; cases hu
  | cons v rest ih =>
    intro u hu
    by_cases hv : v.id = pk
    · rw [updateFirstByPk, if_pos hv] at hu
      rcases List.mem_cons.1 hu with rfl | hu
      · exact ⟨v, List.mem_cons_self _ _, Or.inr ⟨hv, rfl⟩⟩
      · exact ⟨u, List.mem_cons_of_mem _ hu, Or.inl rfl⟩
    · rw [updateFirstByPk, if_neg hv] at hu
      rcases List.mem_cons.1 hu with rfl | hu
      · exact ⟨u, List.mem_cons_self _ _, Or.inl rfl⟩
      · obtain ⟨t, ht, hrel⟩ := ih u hu
        exact ⟨t, List.mem_cons_of_mem _ ht, hrel⟩

theorem updateFirstByPk_map_id (l : List Transaction) (pk : Nat)
    (f : Transaction → Transaction) (h : ∀ t, (f t).id = t.id) :
    (updateFirstByPk l pk f).map (fun t => t.id) = l.map (fun t => t.id) := by
  induction l with
  | nil => rfl
  | cons v rest ih =>
    by_cases hv : v.id = pk
    · simp only [updateFirstByPk, if_pos hv, List.map_cons, h]
    · simp only [updateFirstByPk, if_neg hv, List.map_cons, ih]

theorem id_unique (l : List Transaction)
    (h : (l.map (fun t => t.id)).Nodup) :
    ∀ t ∈ l, ∀ u ∈ l, t.id = u.id → t = u :=
  List.inj_on_of_nodup_map h

theorem evolves_updateFirstByPk (l : List Transaction) (pk : Nat)
    (f : Transaction → Transaction)
    (hid : ∀ t, (f t).id = t.id)
    (hstat : ∀ t, t ∈ l → t.id = pk →
      allowedTransition t.status (f t).status = true) :
    ∀ t ∈ l, ∃ t', t' ∈ updateFirstByPk l pk f ∧ t'.id = t.id ∧
      allowedTransition t.status t'.status = true := by
  intro t ht
  rcases updateFirstByPk_mem l pk f t ht with h | ⟨hpk, hf⟩
  · exact ⟨t, h, rfl, allowedTransition_rfl _⟩
  · exact ⟨f t, hf, hid t, hstat t ht hpk⟩

theorem successDb_wf (db : DB) (now : Nat)
    (td : TransactionRepository.TransactionData) (msg : Option String)
    (hwf : DBWellFormed db) :
    DBWellFormed
      { db with
          transactions := db.transactions ++
            [{ (TransactionRepository.create_transaction db now td).2 with
                status := .VALIDATED, updated_at := now }]
          validation_results := db.validation_results ++ [storedVr db now msg]
          nextTransactionPk := db.nextTransactionPk + 1
          nextValidationPk := db.nextValidationPk + 1 } := by
  constructor
  · intro t ht
    rcases List.mem_append.1 ht with ht | ht
    · exact Nat.lt_succ_of_lt (hwf.1 t ht)
    · rcases List.mem_singleton.1 ht with rfl
      exact Nat.lt_succ_self _
  · show ((db.transactions ++ [_]).map (fun t : Transaction => t.id)).Nodup
    rw [List.map_append]
    refine List.Nodup.append hwf.2 (by simp) (List.disjoint_left.2 ?_)
    intro a ha hb
    simp only [List.map_cons, List.map_nil, List.mem_singleton] at hb
    obtain ⟨u, hu, hua⟩ := List.mem_map.1 ha
    have hid : ({ (TransactionRepository.create_transaction db now td).2 with
        status := TransactionStatus.VALIDATED, updated_at := now } : Transaction).id =
        db.nextTransactionPk := rfl
    exact Nat.ne_of_lt (hwf.1 u hu) (hua.trans (hb.trans hid))

theorem validate_core_evolves (now : Nat) (db : DB) (fmt : WireFormat)
    (p : Payload) (body : String) (hwf : DBWellFormed db) :
    DBWellFormed (ValidateApi.validate_core now db fmt p body).1 ∧
    ∀ t ∈ db.transactions,
      ∃ t', t' ∈ (ValidateApi.validate_core now db fmt p body).1.transactions ∧
        t'.id = t.id ∧ allowedTransition t.status t'.status = true := by
  unfold ValidateApi.validate_core
  dsimp only
  repeat' split
  all_goals
    try exact ⟨hwf, fun t ht => ⟨t, ht, rfl, allowedTransition_rfl _⟩⟩
  rw [create_then_flip db now _ _ hwf.1]
  refine ⟨successDb_wf db now _ _ hwf, ?_⟩
  intro t ht
  exact ⟨t, List.mem_append_left _ ht, rfl, allowedTransition_rfl _⟩

theorem create_processing_result_evolves (db' : DB) (now pk : Nat)
    (msg : Option String) (hwf : DBWellFormed db')
    (hstat : ∀ t ∈ db'.transactions, t.id = pk → t.status = .VALIDATED) :
    DBWellFormed
      (ProcessingResultRepository.create_processing_result db' now pk true msg).1 ∧
    ∀ t ∈ db'.transactions,
      ∃ t', t' ∈ (ProcessingResultRepository.create_processing_result
          db' now pk true msg).1.transactions ∧
        t'.id = t.id ∧ allowedTransition t.status t'.status = true := by
  unfold ProcessingResultRepository.create_processing_result
  dsimp only
  split
  all_goals try exact ⟨⟨hwf.1, hwf.2⟩, fun t ht => ⟨t, ht, rfl, allowedTransition_rfl _⟩⟩
  unfold TransactionRepository.update_transaction_status
  split
  all_goals try exact ⟨⟨hwf.1, hwf.2⟩, fun t ht => ⟨t, ht, rfl, allowedTransition_rfl _⟩⟩
  dsimp only
  constructor
  · constructor
    · intro t ht
      obtain ⟨u, hu, hrel⟩ := updateFirstByPk_mem_rev _ _ _ t ht
      have hb := hwf.1 u hu
      rcases hrel with rfl | ⟨_, rfl⟩
      · exact hb
      · exact hb
    · rw [updateFirstByPk_map_id db'.transactions pk]
      · exact hwf.2
      · intro t; rfl
  · intro t ht
    refine evolves_updateFirstByPk db'.transactions pk _ ?_ ?_ t ht
    · intro u; rfl
    · intro u hu hupk
      rw [hstat u hu hupk]
      rfl

theorem create_processing_result_snd_is_processed (db' : DB) (now pk : Nat)
    (flag : Bool) (msg : Option String) :
    (ProcessingResultRepository.create_processing_result
      db' now pk flag msg).2.is_processed = flag := by
  unfold ProcessingResultRepository.create_processing_result
  dsimp only
  split <;> rfl

theorem process_tail_evolves (now : Nat) (db db1 : DB)
    (transaction : Transaction) (customer : Customer)
    (hwf1 : DBWellFormed db1)
    (hrel : ∀ t ∈ db.transactions,
      ∃ t1, t1 ∈ db1.transactions ∧ t1.id = t.id ∧ t1.status = t.status)
    (hstat1 : ∀ t1 ∈ db1.transactions, t1.id = transaction.id →
      t1.status = .VALIDATED) :
    DBWellFormed (ProcessApi.process_payment now db1 transaction customer).1 ∧
    ∀ t ∈ db.transactions,
      ∃ t', t' ∈ (ProcessApi.process_payment
          now db1 transaction customer).1.transactions ∧
        t'.id = t.id ∧ allowedTransition t.status t'.status = true := by
  unfold ProcessApi.process_payment
  obtain ⟨hwfR, hevR⟩ :=
    create_processing_result_evolves db1 now transaction.id _ hwf1 hstat1
  refine ⟨hwfR, fun t ht => ?_⟩
  obtain ⟨t1, ht1, hid1, hst1⟩ := hrel t ht
  obtain ⟨t', ht', hid', hall'⟩ := hevR t1 ht1
  refine ⟨t', ht', hid'.trans hid1, ?_⟩
  rw [← hst1]
  exact hall'

theorem attachRef2_wf (db : DB) (pk : Nat) (r2 : Option String) (now : Nat)
    (hwf : DBWellFormed db) :
    DBWellFormed
      { db with transactions := (updateFirstByPk db.transactions pk
          (fun t => { t with mobiquity_reference := r2, updated_at := now })) } := by
  constructor
  · intro t ht
    obtain ⟨u, hu, hrel⟩ := updateFirstByPk_mem_rev _ _ _ t ht
    have hb := hwf.1 u hu
    rcases hrel with rfl | ⟨_, rfl⟩
    · exact hb
    · exact hb
  · show ((updateFirstByPk db.transactions pk
      (fun t => { t with mobiquity_reference := r2, updated_at := now })).map
        (fun t : Transaction => t.id)).Nodup
    rw [updateFirstByPk_map_id db.transactions pk]
    · exact hwf.2
    · intro t; rfl

theorem process_core_evolves (now : Nat) (db : DB) (fmt : WireFormat)
    (p : Payload) (hwf : DBWellFormed db) :
    DBWellFormed (ProcessApi.process_core now db fmt p).1 ∧
    ∀ t ∈ db.transactions,
      ∃ t', t' ∈ (ProcessApi.process_core now db fmt p).1.transactions ∧
        t'.id = t.id ∧ allowedTransition t.status t'.status = true := by
  have hunchanged : DBWellFormed db ∧ ∀ t ∈ db.transactions,
      ∃ t', t' ∈ db.transactions ∧ t'.id = t.id ∧
        allowedTransition t.status t'.status = true :=
    ⟨hwf, fun t ht => ⟨t, ht, rfl, allowedTransition_rfl _⟩⟩
  unfold ProcessApi.process_core
  dsimp only
  by_cases h0 : (!truthy (getField p "REFERENCE1")) = true
  · simp only [if_pos h0]
    exact hunchanged
  · simp only [if_neg h0]
    cases heq : TransactionRepository.get_transaction_by_transaction_id db
        ((getField p "REFERENCE1").getD "") with
    | none => simp only [heq]; exact hunchanged
    | some transaction =>
      simp only [heq]
      have htmem : transaction ∈ db.transactions :=
        List.mem_of_find?_eq_some heq
      by_cases hP : transaction.status = TransactionStatus.PROCESSED
      · simp only [if_pos hP]
        exact hunchanged
      · simp only [if_neg hP]
        by_cases hV : transaction.status ≠ TransactionStatus.VALIDATED
        · simp only [if_pos hV]
          exact hunchanged
        · simp only [if_neg hV]
          have hVe : transaction.status = TransactionStatus.VALIDATED :=
            not_not.1 hV
          cases hcust : ProcessApi.customerLookup db transaction with
          | none => simp only [hcust]; exact hunchanged
          | some customer =>
            simp only [hcust]
            by_cases hact : customer.status ≠ CustomerStatus.ACTIVE
            · simp only [if_pos hact]
              exact hunchanged
            · simp only [if_neg hact]
              have hstat : ∀ u ∈ db.transactions, u.id = transaction.id →
                  u.status = TransactionStatus.VALIDATED := by
                intro u hu hid
                rw [id_unique db.transactions hwf.2 u hu transaction htmem hid]
                exact hVe
              by_cases hr2 : truthy (getField p "REFERENCE2") = true
              · simp only [if_pos hr2]
                have hproc : (ProcessApi.process_payment now
                    { db with transactions := (updateFirstByPk db.transactions
                        transaction.id (fun t => { t with
                          mobiquity_reference := getField p "REFERENCE2",
                          updated_at := now })) }
                    transaction customer).2.is_processed = true := by
                  unfold ProcessApi.process_payment
                  exact create_processing_result_snd_is_processed _ _ _ _ _
                simp only [hproc, Bool.not_true, Bool.false_eq_true, if_false]
                refine process_tail_evolves now db _ transaction customer
                  (attachRef2_wf db transaction.id _ now hwf) ?_ ?_
                · intro t ht
                  rcases updateFirstByPk_mem db.transactions transaction.id _ t ht
                    with h | ⟨hpk, hf⟩
                  · exact ⟨t, h, rfl, rfl⟩
                  · exact ⟨_, hf, rfl, rfl⟩
                · intro t1 ht1 hid1
                  obtain ⟨u, hu, hrel⟩ := updateFirstByPk_mem_rev _ _ _ t1 ht1
                  rcases hrel with rfl | ⟨hupk, rfl⟩
                  · exact hstat t1 hu hid1
                  · exact hstat u hu hupk
              · simp only [if_neg hr2]
                have hproc : (ProcessApi.process_payment now db
                    transaction customer).2.is_processed = true := by
                  unfold ProcessApi.process_payment
                  exact create_processing_result_snd_is_processed _ _ _ _ _
                simp only [hproc, Bool.not_true, Bool.false_eq_true, if_false]
                exact process_tail_evolves now db db transaction customer hwf
                  (fun t ht => ⟨t, ht, rfl, rfl⟩) hstat

theorem applyOp_evolves (db : DB) (op : Op) (hwf : DBWellFormed db) :
    DBWellFormed (applyOp db op).1 ∧
    ∀ t ∈ db.transactions,
      ∃ t', t' ∈ (applyOp db op).1.transactions ∧
        t'.id = t.id ∧ allowedTransition t.status t'.status = true := by
  have hunchanged : DBWellFormed db ∧ ∀ t ∈ db.transactions,
      ∃ t', t' ∈ db.transactions ∧ t'.id = t.id ∧
        allowedTransition t.status t'.status = true :=
    ⟨hwf, fun t ht => ⟨t, ht, rfl, allowedTransition_rfl _⟩⟩
  cases op with
  | validateOp now body =>
    show DBWellFormed (ValidateApi.validate_ipn now db body).1 ∧
      ∀ t ∈ db.transactions,
        ∃ t', t' ∈ (ValidateApi.validate_ipn now db body).1.transactions ∧
          t'.id = t.id ∧ allowedTransition t.status t'.status = true
    unfold ValidateApi.validate_ipn
    split
    · cases hx : parse_xml_request body with
      | error e => simp only [hx]; exact hunchanged
      | ok p => simp only [hx]; exact validate_core_evolves now db .xml p body hwf
    · cases hx : parse_json_request body with
      | error e => simp only [hx]; exact hunchanged
      | ok p => simp only [hx]; exact validate_core_evolves now db .json p body hwf
  | processOp now body =>
    show DBWellFormed (ProcessApi.process_ipn now db body).1 ∧
      ∀ t ∈ db.transactions,
        ∃ t', t' ∈ (ProcessApi.process_ipn now db body).1.transactions ∧
          t'.id = t.id ∧ allowedTransition t.status t'.status = true
    unfold ProcessApi.process_ipn
    split
    · cases hx : parse_xml_request body with
      | error e => simp only [hx]; exact hunchanged
      | ok p => simp only [hx]; exact process_core_evolves now db .xml p hwf
    · cases hx : parse_json_request body with
      | error e => simp only [hx]; exact hunchanged
      | ok p => simp only [hx]; exact process_core_evolves now db .json p hwf

theorem runOps_evolves (ops : List Op) (db : DB) (hwf : DBWellFormed db) :
    DBWellFormed (runOps db ops) ∧
    ∀ t ∈ db.transactions,
      ∃ t', t' ∈ (runOps db ops).transactions ∧
        t'.id = t.id ∧ allowedTransition t.status t'.status = true := by
  induction ops generalizing db with
  | nil =>
    exact ⟨hwf, fun t ht => ⟨t, ht, rfl, allowedTransition_rfl _⟩⟩
  | cons op ops ih =>
    have hstep := applyOp_evolves db op hwf
    have hrest := ih (applyOp db op).1 hstep.1
    refine ⟨hrest.1, fun t ht => ?_⟩
    obtain ⟨t1, ht1, hid1, hall1⟩ := hstep.2 t ht
    obtain ⟨t2, ht2, hid2, hall2⟩ := hrest.2 t1 ht1
    exact ⟨t2, ht2, hid2.trans hid1, allowedTransition_trans hall1 hall2⟩

theorem allowedTransition_terminal {a b : TransactionStatus}
    (h : allowedTransition a b = true)
    (ht : a = .PROCESSED ∨ a = .FAILED) : b = a := by
  rcases ht with rfl | rfl <;> cases b <;> simp_all [allowedTransition]

/-- C2: Terminal-state invariant. Over any sequence of validate and process
calls on a well-formed store, every stored transaction evolves only along
edges allowed by the lifecycle (`allowedTransition`: forward through
`PENDING → VALIDATED → PROCESSED`, short-circuit to `FAILED` from a
non-terminal state, and no edge out of `PROCESSED` or `FAILED`); in
particular a transaction that is `PROCESSED` or `FAILED` still has exactly
that status after the whole sequence. -/
theorem c2_terminal_states (db : DB) (ops : List Op) (hwf : DBWellFormed db) :
    (∀ t ∈ db.transactions,
      ∃ t', t' ∈ (runOps db ops).transactions ∧ t'.id = t.id ∧
        allowedTransition t.status t'.status = true) ∧
    (∀ t ∈ db.transactions, t.status = .PROCESSED ∨ t.status = .FAILED →
      ∃ t', t' ∈ (runOps db ops).transactions ∧ t'.id = t.id ∧
        t'.status = t.status) := by
  refine ⟨(runOps_evolves ops db hwf).2, fun t ht hterm => ?_⟩
  obtain ⟨t', ht', hid, hall⟩ := (runOps_evolves ops db hwf).2 t ht
  exact ⟨t', ht', hid, allowedTransition_terminal hall hterm⟩

/-- Witness for C2: a `PROCESSED` transaction survives a process call
followed by a validate call with its status intact. -/
theorem c2_terminal_states_witness :
    ∃ t', t' ∈ (runOps (dbWith [sampleTxn .PROCESSED])
        [Op.processOp 1 sampleProcessBody,
         Op.validateOp 2 sampleValidateBody]).transactions ∧
      t'.id = (sampleTxn .PROCESSED).id ∧
      t'.status = (sampleTxn .PROCESSED).status :=
  (c2_terminal_states (dbWith [sampleTxn .PROCESSED])
    [Op.processOp 1 sampleProcessBody, Op.validateOp 2 sampleValidateBody]
    ⟨by decide, by decide⟩).2 (sampleTxn .PROCESSED) (by decide) (Or.inl rfl)

theorem billRefPatternMatch_iff (s : String) (h : s.data ≠ []) :
    billRefPatternMatch s = true ↔
      (s.data.all isBillRefChar = true ∨
        (s.data.getLast? = some '\n' ∧ s.data.dropLast ≠ [] ∧
          s.data.dropLast.all isBillRefChar = true)) := by
  simp [billRefPatternMatch, List.isEmpty_iff, h, and_assoc]

/-- C9 (amended): `validate_bill_ref` accepts exactly the nonempty strings
of at most 50 characters that either consist wholly of `[A-Za-z0-9_.-]`
characters, or consist of at least one such character followed by a single
trailing newline (Python `re` lets `$` match before a final newline); when
the pattern rejects a nonempty, short-enough string the error detail is
"Bill reference number contains invalid characters", and an accepted string
carries no error detail. -/
theorem c9_validator_amended (s : String) :
    ((validate_bill_ref s).1 = true ↔
      (s ≠ "" ∧ s.length ≤ 50 ∧
        (s.data.all isBillRefChar = true ∨
          (s.data.getLast? = some '\n' ∧ s.data.dropLast ≠ [] ∧
            s.data.dropLast.all isBillRefChar = true)))) ∧
    (s ≠ "" → s.length ≤ 50 → billRefPatternMatch s = false →
      validate_bill_ref s =
        (false, some "Bill reference number contains invalid characters")) ∧
    ((validate_bill_ref s).1 = true → (validate_bill_ref s).2 = none) := by
  have hdata : s ≠ "" → s.data ≠ [] := by
    intro hne hd
    apply hne
    cases s with
    | mk d => rw [show d = [] from hd]
  refine ⟨?_, ?_, ?_⟩
  · by_cases h0 : s = ""
    · subst h0; simp [validate_bill_ref]
    · by_cases h1 : s.length > 50
      · simp only [validate_bill_ref, if_neg h0, if_pos h1]
        constructor
        · intro h; simp at h
        · rintro ⟨_, hlen, _⟩; omega
      · simp only [validate_bill_ref, if_neg h0, if_neg h1]
        by_cases h2 : billRefPatternMatch s = true
        · simp only [h2, Bool.not_true, Bool.false_eq_true, if_false]
          simp only [true_iff]
          exact ⟨h0, by omega, (billRefPatternMatch_iff s (hdata h0)).1 h2⟩
        · have h2' : (!billRefPatternMatch s) = true := by
            simp only [Bool.not_eq_true] at h2
            simp [h2]
          simp only [h2', if_true]
          constructor
          · intro h; simp at h
          · rintro ⟨_, _, hd⟩
            exact absurd ((billRefPatternMatch_iff s (hdata h0)).2 hd) h2
  · intro h0 h1 h2
    have h1' : ¬ s.length > 50 := by omega
    simp [validate_bill_ref, if_neg h0, if_neg h1', h2]
  · intro h
    by_cases h0 : s = ""
    · simp [validate_bill_ref, h0] at h
    · by_cases h1 : s.length > 50
      · simp [validate_bill_ref, if_neg h0, if_pos h1] at h
      · by_cases h2 : billRefPatternMatch s = true
        · simp [validate_bill_ref, if_neg h0, if_neg h1, h2]
        · simp only [Bool.not_eq_true] at h2
          simp [validate_bill_ref, if_neg h0, if_neg h1, h2] at h
/-- C1: Phase-2 idempotency. For every stored transaction whose status is
`PROCESSED`, a process call carrying its external id replies `SUCCESS` with
message "Transaction already processed" and returns the store unchanged — no
`ProcessingResult` row is appended and the transaction, including its
`updated_at` timestamp, is exactly as before. -/
theorem c1_phase2_idempotent (now : Nat) (db : DB) (fmt : WireFormat)
    (payload : Payload) (tid : String) (t : Transaction)
    (h1 : getField payload "REFERENCE1" = some tid) (h2 : tid ≠ "")
    (h3 : TransactionRepository.get_transaction_by_transaction_id db tid = some t)
    (h4 : t.status = .PROCESSED) :
    ProcessApi.process_core now db fmt payload =
      (db, ProcessApi.create_response fmt "SUCCESS"
        "Transaction already processed" tid []) := by
  unfold ProcessApi.process_core
  simp [h1, h3, h4, truthy, h2]

/-- C5: Phase-2 failure guards are mutation-free. An unknown external id
replies `FAILED` "Transaction not found"; a transaction that is neither
`PROCESSED` nor `VALIDATED` replies `FAILED` "Transaction not validated";
a `VALIDATED` transaction whose owning customer is missing or not `ACTIVE`
replies `FAILED` "Customer not found or inactive"; in all three cases the
store is returned unchanged, so the transaction stays `VALIDATED` in the
last case. -/
theorem c5_phase2_failure_guards (now : Nat) (db : DB) (fmt : WireFormat) (payload : Payload)
    (tid : String)
    (h1 : getField payload "REFERENCE1" = some tid) (h2 : tid ≠ "") :
    (TransactionRepository.get_transaction_by_transaction_id db tid = none →
      ProcessApi.process_core now db fmt payload =
        (db, ProcessApi.create_response fmt "FAILED" "Transaction not found" tid [])) ∧
    (∀ t, TransactionRepository.get_transaction_by_transaction_id db tid = some t →
      t.status ≠ .PROCESSED → t.status ≠ .VALIDATED →
      ProcessApi.process_core now db fmt payload =
        (db, ProcessApi.create_response fmt "FAILED" "Transaction not validated" tid [])) ∧
    (∀ t, TransactionRepository.get_transaction_by_transaction_id db tid = some t →
      t.status = .VALIDATED →
      (ProcessApi.customerLookup db t = none ∨
        (∃ c, ProcessApi.customerLookup db t = some c ∧ c.status ≠ .ACTIVE)) →
      ProcessApi.process_core now db fmt payload =
        (db, ProcessApi.create_response fmt "FAILED"
          "Customer not found or inactive" tid [])) := by
  refine ⟨?_, ?_, ?_⟩
  · intro hfind
    unfold ProcessApi.process_core
    simp [h1, hfind, truthy, h2]
  · intro t hfind hP hV
    unfold ProcessApi.process_core
    simp [h1, hfind, truthy, h2, hP, hV]
  · intro t hfind hV hc
    unfold ProcessApi.process_core
    rcases hc with hc | ⟨c, hc, hcs⟩
    · simp [h1, hfind, truthy, h2, hV, hc]
    · simp [h1, hfind, truthy, h2, hV, hc, hcs]

/-- C10: Malformed-markup totality. For every body whose first
non-whitespace character is `<` but which the decoder rejects, both
endpoints catch the decode failure ("Invalid XML format" raised as an
HTTP 400 by `parse_xml_request`) and return a well-formed markup `FAILED`
reply with the store unchanged — no unhandled fault crosses the external
interface. -/
theorem c10_malformed_markup (now : Nat) (db : DB) (body e : String)
    (h1 : detectsMarkup body = true)
    (h2 : parse_xml_request body = .error e) :
    ValidateApi.validate_ipn now db body =
      (db, .xmlContent (xmlReplyContent "FAILED"
        ("Internal server error: 400: Invalid XML format: " ++ e))) ∧
    ProcessApi.process_ipn now db body =
      (db, .xmlContent (xmlReplyContent "FAILED"
        ("Internal server error: 400: Invalid XML format: " ++ e))) := by
  constructor
  · unfold ValidateApi.validate_ipn
    simp [h1, h2, ValidateApi.create_response]
  · unfold ProcessApi.process_ipn
    simp [h1, h2, ProcessApi.create_response]

/-- Witness for C10 at the unterminated body `"<COMMAND>"`. -/
theorem c10_malformed_markup_witness : ValidateApi.validate_ipn 0 (dbWith []) "<COMMAND>" =
    ((dbWith []), .xmlContent (xmlReplyContent "FAILED"
      ("Internal server error: 400: Invalid XML format: " ++ "no element found"))) :=
  (c10_malformed_markup 0 (dbWith []) "<COMMAND>" "no element found" (by rfl) (by rfl)).1

set_option maxRecDepth 8000 in
/-- C7: `create_transaction` never stores the `customer_id`,
`merchant_msisdn` or `airtel_reference` entries of the `transaction_data`
dict built by `validate_ipn` — the stored row keeps `none` in those columns
for every input, and concretely a successful scenario-1 validation stores a
row with no owning-customer reference and no merchant phone although the
request supplied both. -/
theorem c7_stored_fields_dropped :
    (∀ (db : DB) (now : Nat) (td : TransactionRepository.TransactionData),
        (TransactionRepository.create_transaction db now td).2.customer_id = none ∧
        (TransactionRepository.create_transaction db now td).2.merchant_msisdn = none ∧
        (TransactionRepository.create_transaction db now td).2.airtel_reference = none) ∧
    ((ValidateApi.validate_ipn 5 (dbWith []) sampleValidateBody).2 =
        .jsonObj "SUCCESS" "Transaction validated successfully" (some "TRX1") []) ∧
    ((ValidateApi.validate_ipn 5 (dbWith []) sampleValidateBody).1.transactions.map
        (fun t => (t.transaction_id, t.customer_id, t.merchant_msisdn)) =
      [("TRX1", none, none)]) := by
  refine ⟨fun db now td => ⟨rfl, rfl, rfl⟩, by rfl, by rfl⟩

/-- Witness for C1 at a concrete store holding a `PROCESSED` transaction. -/
theorem c1_phase2_idempotent_witness : ProcessApi.process_core 9 (dbWith [sampleTxn .PROCESSED]) .json
      [("REFERENCE1", some "TRX1")] =
    ((dbWith [sampleTxn .PROCESSED]), ProcessApi.create_response .json "SUCCESS"
      "Transaction already processed" "TRX1" []) :=
  c1_phase2_idempotent 9 (dbWith [sampleTxn .PROCESSED]) .json [("REFERENCE1", some "TRX1")]
    "TRX1" (sampleTxn .PROCESSED) (by rfl) (by decide) (by rfl) (by rfl)

/-- Witness for C5: the three guards at concrete stores. -/
theorem c5_phase2_failure_guards_witness :
    ProcessApi.process_core 9 (dbWith []) .json [("REFERENCE1", some "TRX1")] =
      ((dbWith []), ProcessApi.create_response .json "FAILED" "Transaction not found" "TRX1" []) ∧
    ProcessApi.process_core 9 (dbWith [sampleTxn .PENDING]) .json [("REFERENCE1", some "TRX1")] =
      ((dbWith [sampleTxn .PENDING]), ProcessApi.create_response .json "FAILED" "Transaction not validated" "TRX1" []) ∧
    ProcessApi.process_core 9 (dbWith [{ sampleTxn .VALIDATED with customer_id := none }]) .json [("REFERENCE1", some "TRX1")] =
      ((dbWith [{ sampleTxn .VALIDATED with customer_id := none }]), ProcessApi.create_response .json "FAILED" "Customer not found or inactive" "TRX1" []) :=
  ⟨(c5_phase2_failure_guards 9 (dbWith []) .json [("REFERENCE1", some "TRX1")] "TRX1" (by rfl) (by decide)).1 (by rfl),
   (c5_phase2_failure_guards 9 (dbWith [sampleTxn .PENDING]) .json [("REFERENCE1", some "TRX1")] "TRX1" (by rfl) (by decide)).2.1
     (sampleTxn .PENDING) (by rfl) (by decide) (by decide),
   (c5_phase2_failure_guards 9 (dbWith [{ sampleTxn .VALIDATED with customer_id := none }]) .json [("REFERENCE1", some "TRX1")] "TRX1" (by rfl) (by decide)).2.2
     ({ sampleTxn .VALIDATED with customer_id := none }) (by rfl) (by rfl) (Or.inl (by rfl))⟩
theorem validate_core_xml_isXml (now : Nat) (db : DB) (p : Payload) (b : String) :
    (ValidateApi.validate_core now db .xml p b).2.isXml = true := by
  unfold ValidateApi.validate_core
  dsimp only
  repeat' split
  all_goals rfl

theorem process_core_fmt_isXml (now : Nat) (db : DB) (fmt : WireFormat) (p : Payload) :
    (ProcessApi.process_core now db fmt p).2.isXml =
      (match fmt with | .xml => true | .json => false) := by
  unfold ProcessApi.process_core
  dsimp only
  repeat' split
  all_goals rfl

theorem validate_core_json_fmt (now : Nat) (db : DB) (p : Payload) (b : String) :
    (ValidateApi.validate_core now db .json p b).2.isXml = false ∨
    ∃ a, getField p "AMOUNT" = some a ∧ pyFloat? a = none ∧
      ValidateApi.validate_core now db .json p b =
        (db, ValidateApi.create_response .xml "FAILED"
          ("Internal server error: could not convert string to float: '"
            ++ a ++ "'")
          (getFieldD p "REFERENCE1" "unknown")) := by
  unfold ValidateApi.validate_core
  dsimp only
  split
  · exact Or.inl rfl
  · rename_i h0
    repeat' split
    all_goals try exact Or.inl rfl
    -- remaining: the float-error branch replying in markup format
    rename_i hfl
    have htr : truthy (getField p "AMOUNT") = true := by
      rcases hx : (truthy (getField p "REFERENCE1") && truthy (getField p "REFERENCE") &&
          truthy (getField p "AMOUNT") && truthy (getField p "CUSTOMERMSISDN")) with _ | _
      · exact absurd (by simp [hx]) h0
      · simp only [Bool.and_eq_true] at hx
        exact hx.1.2
    obtain ⟨a, ha⟩ : ∃ a, getField p "AMOUNT" = some a := by
      cases hgf : getField p "AMOUNT" with
      | none => rw [hgf] at htr; simp [truthy] at htr
      | some a => exact ⟨a, rfl⟩
    refine Or.inr ⟨a, ha, ?_, ?_⟩
    · rw [ha] at hfl
      simpa using hfl
    · rw [ha, Option.getD_some]

/-- C6 (amended): a request detected as markup (first non-whitespace
character `<`) always receives a markup reply, on every path including
decode failure and internal error; a request detected as key-value that
decodes as JSON receives a key-value reply unless control reaches
`float(amount)` and the conversion fails — in that case the blanket
handler replies in markup format with the store unchanged. Markup is
thus also used when the request's format was determined to be
key-value, not only when it could not be determined. -/
theorem c6_format_fidelity_amended (now : Nat) (db : DB) (body : String) :
    (detectsMarkup body = true →
      (ValidateApi.validate_ipn now db body).2.isXml = true ∧
      (ProcessApi.process_ipn now db body).2.isXml = true) ∧
    (detectsMarkup body = false →
      ∀ p, parse_json_request body = .ok p →
        ((ValidateApi.validate_ipn now db body).2.isXml = false ∨
          ∃ a, getField p "AMOUNT" = some a ∧ pyFloat? a = none ∧
            ValidateApi.validate_ipn now db body =
              (db, ValidateApi.create_response .xml "FAILED"
                ("Internal server error: could not convert string to float: '"
                  ++ a ++ "'")
                (getFieldD p "REFERENCE1" "unknown"))) ∧
        (ProcessApi.process_ipn now db body).2.isXml = false) := by
  constructor
  · intro hdet
    constructor
    · unfold ValidateApi.validate_ipn
      rw [if_pos hdet]
      cases hx : parse_xml_request body with
      | error e => rfl
      | ok p => exact validate_core_xml_isXml now db p body
    · unfold ProcessApi.process_ipn
      rw [if_pos hdet]
      cases hx : parse_xml_request body with
      | error e => rfl
      | ok p => exact process_core_fmt_isXml now db .xml p
  · intro hdet p hp
    have hdet' : ¬ detectsMarkup body = true := by simp [hdet]
    constructor
    · have hv : ValidateApi.validate_ipn now db body =
          ValidateApi.validate_core now db .json p body := by
        unfold ValidateApi.validate_ipn
        rw [if_neg hdet', hp]
      rw [hv]
      exact validate_core_json_fmt now db p body
    · unfold ProcessApi.process_ipn
      rw [if_neg hdet', hp]
      exact process_core_fmt_isXml now db .json p

set_option maxRecDepth 8000 in
/-- C6 counterexample: a key-value request that decodes successfully but
whose `AMOUNT` fails float conversion is answered in markup format, not in
the key-value format the claim promises for every non-markup request. -/
theorem c6_format_fidelity_counterexample :
    detectsMarkup sampleBadAmountBody = false ∧
    exceptOk (parse_json_request sampleBadAmountBody) = true ∧
    (ValidateApi.validate_ipn 0 (dbWith []) sampleBadAmountBody).2.isXml = true := by
  refine ⟨rfl, rfl, by rfl⟩

set_option maxRecDepth 8000 in
/-- Witness for C6: a markup request gets a markup reply and a well-formed
key-value request gets a key-value reply. -/
theorem c6_format_fidelity_amended_witness :
    (ValidateApi.validate_ipn 0 (dbWith []) "<COMMAND>").2.isXml = true ∧
    (ValidateApi.validate_ipn 5 (dbWith []) sampleValidateBody).2.isXml = false := by
  constructor
  · exact ((c6_format_fidelity_amended 0 (dbWith []) "<COMMAND>").1 (by rfl)).1
  · rcases ((c6_format_fidelity_amended 5 (dbWith []) sampleValidateBody).2 (by rfl)
      sampleValidatePayload (by rfl)).1 with h | ⟨a, ha, hf, _⟩
    · exact h
    · rw [show getField sampleValidatePayload "AMOUNT" = some "1000.00" from rfl] at ha
      injection ha with h
      subst h
      exact absurd hf (by decide)
/-! ### Round-trip of the markup reply template -/

theorem parseText_run (s : List Char) : ∀ (fuel : Nat) (acc rest : List Char),
    s.all xmlSafeChar = true → s.length < fuel →
    parseText fuel (s ++ '<' :: rest) acc = .ok (acc.reverse ++ s, '<' :: rest) := by
  induction s with
  | nil =>
    intro fuel acc rest _ hf
    obtain ⟨k, rfl⟩ : ∃ k, fuel = k + 1 := ⟨fuel - 1, by omega⟩
    simp [parseText]
  | cons c cs ih =>
    intro fuel acc rest hall hf
    obtain ⟨k, rfl⟩ : ∃ k, fuel = k + 1 := ⟨fuel - 1, by omega⟩
    simp only [List.all_cons, Bool.and_eq_true] at hall
    obtain ⟨hc, hcs⟩ := hall
    simp only [xmlSafeChar, Bool.and_eq_true, decide_eq_true_eq] at hc
    obtain ⟨⟨⟨⟨hx, h1⟩, h2⟩, h3⟩, h4⟩ := hc
    simp only [List.cons_append, parseText]
    rw [if_neg h1, if_neg h2, if_neg h3, if_neg h4, if_pos hx]
    rw [ih k (c :: acc) rest hcs (by simp at hf; omega)]
    simp

theorem parseText_run0 (s rest : List Char) (fuel : Nat)
    (h1 : s.all xmlSafeChar = true) (h2 : s.length < fuel) :
    parseText fuel (s ++ '<' :: rest) [] = .ok (s, '<' :: rest) := by
  simpa using parseText_run s fuel [] rest h1 h2

theorem parseElement_statusTag (fuel : Nat) (s rest : List Char)
    (hs : s.isEmpty = false) (hall : s.all xmlSafeChar = true) :
    parseElement (fuel + 2)
        ('<':: 'S':: 'T':: 'A':: 'T':: 'U':: 'S':: '>'::
          (s ++ ('<':: '/':: 'S':: 'T':: 'A':: 'T':: 'U':: 'S':: '>'::rest))) =
      .ok (.elem "STATUS" (some ⟨s⟩) [], rest) := by
  have step : parseElement (fuel + 2)
      ('<':: 'S':: 'T':: 'A':: 'T':: 'U':: 'S':: '>'::
        (s ++ ('<':: '/':: 'S':: 'T':: 'A':: 'T':: 'U':: 'S':: '>'::rest))) =
      match parseText
          ((s ++ ('<':: '/':: 'S':: 'T':: 'A':: 'T':: 'U':: 'S':: '>'::rest)).length + 1)
          (s ++ ('<':: '/':: 'S':: 'T':: 'A':: 'T':: 'U':: 'S':: '>'::rest)) [] with
      | .error e => .error e
      | .ok (txt, rest4) =>
        parseChildren (fuel + 1) "STATUS"
          (if txt.isEmpty then none else some ⟨txt⟩) [] rest4 := rfl
  rw [step, parseText_run0 s _ _ hall (by simp [List.length_append]; omega)]
  simp only [hs, Bool.false_eq_true, if_false]
  rfl

theorem parseElement_messageTag (fuel : Nat) (s rest : List Char)
    (hs : s.isEmpty = false) (hall : s.all xmlSafeChar = true) :
    parseElement (fuel + 2)
        ('<':: 'M':: 'E':: 'S':: 'S':: 'A':: 'G':: 'E':: '>'::
          (s ++ ('<':: '/':: 'M':: 'E':: 'S':: 'S':: 'A':: 'G':: 'E':: '>'::rest))) =
      .ok (.elem "MESSAGE" (some ⟨s⟩) [], rest) := by
  have step : parseElement (fuel + 2)
      ('<':: 'M':: 'E':: 'S':: 'S':: 'A':: 'G':: 'E':: '>'::
        (s ++ ('<':: '/':: 'M':: 'E':: 'S':: 'S':: 'A':: 'G':: 'E':: '>'::rest))) =
      match parseText
          ((s ++ ('<':: '/':: 'M':: 'E':: 'S':: 'S':: 'A':: 'G':: 'E':: '>'::rest)).length + 1)
          (s ++ ('<':: '/':: 'M':: 'E':: 'S':: 'S':: 'A':: 'G':: 'E':: '>'::rest)) [] with
      | .error e => .error e
      | .ok (txt, rest4) =>
        parseChildren (fuel + 1) "MESSAGE"
          (if txt.isEmpty then none else some ⟨txt⟩) [] rest4 := rfl
  rw [step, parseText_run0 s _ _ hall (by simp [List.length_append]; omega)]
  simp only [hs, Bool.false_eq_true, if_false]
  rfl

theorem parseElement_reply (fuel : Nat) (s m rest : List Char)
    (hs : s.isEmpty = false) (hsall : s.all xmlSafeChar = true)
    (hm : m.isEmpty = false) (hmall : m.all xmlSafeChar = true) :
    parseElement (fuel + 5) ('<':: 'C':: 'O':: 'M':: 'M':: 'A':: 'N':: 'D':: '>'::("\n            ".data ++ ('<':: 'S':: 'T':: 'A':: 'T':: 'U':: 'S':: '>'::(s ++ ('<':: '/':: 'S':: 'T':: 'A':: 'T':: 'U':: 'S':: '>'::("\n            ".data ++ ('<':: 'M':: 'E':: 'S':: 'S':: 'A':: 'G':: 'E':: '>'::(m ++ ('<':: '/':: 'M':: 'E':: 'S':: 'S':: 'A':: 'G':: 'E':: '>'::("\n        ".data ++ ('<':: '/':: 'C':: 'O':: 'M':: 'M':: 'A':: 'N':: 'D':: '>'::rest))))))))))) =
      .ok (.elem "COMMAND" (some "\n            ")
        [.elem "STATUS" (some ⟨s⟩) [], .elem "MESSAGE" (some ⟨m⟩) []], rest) := by
  have step1 : parseElement (fuel + 5) ('<':: 'C':: 'O':: 'M':: 'M':: 'A':: 'N':: 'D':: '>'::("\n            ".data ++ ('<':: 'S':: 'T':: 'A':: 'T':: 'U':: 'S':: '>'::(s ++ ('<':: '/':: 'S':: 'T':: 'A':: 'T':: 'U':: 'S':: '>'::("\n            ".data ++ ('<':: 'M':: 'E':: 'S':: 'S':: 'A':: 'G':: 'E':: '>'::(m ++ ('<':: '/':: 'M':: 'E':: 'S':: 'S':: 'A':: 'G':: 'E':: '>'::("\n        ".data ++ ('<':: '/':: 'C':: 'O':: 'M':: 'M':: 'A':: 'N':: 'D':: '>'::rest))))))))))) =
      parseChildren (fuel + 4) "COMMAND" (some "\n            ") []
        ('<':: 'S':: 'T':: 'A':: 'T':: 'U':: 'S':: '>'::(s ++ ('<':: '/':: 'S':: 'T':: 'A':: 'T':: 'U':: 'S':: '>'::("\n            ".data ++ ('<':: 'M':: 'E':: 'S':: 'S':: 'A':: 'G':: 'E':: '>'::(m ++ ('<':: '/':: 'M':: 'E':: 'S':: 'S':: 'A':: 'G':: 'E':: '>'::("\n        ".data ++ ('<':: '/':: 'C':: 'O':: 'M':: 'M':: 'A':: 'N':: 'D':: '>'::rest))))))))) := rfl
  have step2 : parseChildren (fuel + 4) "COMMAND" (some "\n            ") []
      ('<':: 'S':: 'T':: 'A':: 'T':: 'U':: 'S':: '>'::(s ++ ('<':: '/':: 'S':: 'T':: 'A':: 'T':: 'U':: 'S':: '>'::("\n            ".data ++ ('<':: 'M':: 'E':: 'S':: 'S':: 'A':: 'G':: 'E':: '>'::(m ++ ('<':: '/':: 'M':: 'E':: 'S':: 'S':: 'A':: 'G':: 'E':: '>'::("\n        ".data ++ ('<':: '/':: 'C':: 'O':: 'M':: 'M':: 'A':: 'N':: 'D':: '>'::rest))))))))) =
      match parseElement ((fuel + 1) + 2)
          ('<':: 'S':: 'T':: 'A':: 'T':: 'U':: 'S':: '>'::(s ++ ('<':: '/':: 'S':: 'T':: 'A':: 'T':: 'U':: 'S':: '>'::("\n            ".data ++ ('<':: 'M':: 'E':: 'S':: 'S':: 'A':: 'G':: 'E':: '>'::(m ++ ('<':: '/':: 'M':: 'E':: 'S':: 'S':: 'A':: 'G':: 'E':: '>'::("\n        ".data ++ ('<':: '/':: 'C':: 'O':: 'M':: 'M':: 'A':: 'N':: 'D':: '>'::rest))))))))) with
      | Except.error e => Except.error e
      | Except.ok (child, rest1) =>
        match parseText (rest1.length + 1) rest1 [] with
        | Except.error e => Except.error e
        | Except.ok (_, rest2) =>
          parseChildren (fuel + 3) "COMMAND" (some "\n            ")
            (child :: []) rest2 := rfl
  rw [step1, step2, parseElement_statusTag (fuel + 1) s ("\n            ".data ++ ('<':: 'M':: 'E':: 'S':: 'S':: 'A':: 'G':: 'E':: '>'::(m ++ ('<':: '/':: 'M':: 'E':: 'S':: 'S':: 'A':: 'G':: 'E':: '>'::("\n        ".data ++ ('<':: '/':: 'C':: 'O':: 'M':: 'M':: 'A':: 'N':: 'D':: '>'::rest)))))) hs hsall]
  have step3 : (match (Except.ok (XmlTree.elem "STATUS" (some ⟨s⟩) [], ("\n            ".data ++ ('<':: 'M':: 'E':: 'S':: 'S':: 'A':: 'G':: 'E':: '>'::(m ++ ('<':: '/':: 'M':: 'E':: 'S':: 'S':: 'A':: 'G':: 'E':: '>'::("\n        ".data ++ ('<':: '/':: 'C':: 'O':: 'M':: 'M':: 'A':: 'N':: 'D':: '>'::rest))))))) :
        Except String (XmlTree × List Char)) with
      | Except.error e => Except.error e
      | Except.ok (child, rest1) =>
        match parseText (rest1.length + 1) rest1 [] with
        | Except.error e => Except.error e
        | Except.ok (_, rest2) =>
          parseChildren (fuel + 3) "COMMAND" (some "\n            ")
            (child :: []) rest2) =
      match parseElement (fuel + 2)
          ('<':: 'M':: 'E':: 'S':: 'S':: 'A':: 'G':: 'E':: '>'::(m ++ ('<':: '/':: 'M':: 'E':: 'S':: 'S':: 'A':: 'G':: 'E':: '>'::("\n        ".data ++ ('<':: '/':: 'C':: 'O':: 'M':: 'M':: 'A':: 'N':: 'D':: '>'::rest))))) with
      | Except.error e => Except.error e
      | Except.ok (child, rest1) =>
        match parseText (rest1.length + 1) rest1 [] with
        | Except.error e => Except.error e
        | Except.ok (_, rest2) =>
          parseChildren (fuel + 2) "COMMAND" (some "\n            ")
            (child :: XmlTree.elem "STATUS" (some ⟨s⟩) [] :: []) rest2 := rfl
  rw [step3, parseElement_messageTag fuel m ("\n        ".data ++ ('<':: '/':: 'C':: 'O':: 'M':: 'M':: 'A':: 'N':: 'D':: '>'::rest)) hm hmall]
  rfl

theorem parse_xml_request_reply (status message : String)
    (hs : xmlSafeText status = true) (hm : xmlSafeText message = true) :
    parse_xml_request (xmlReplyContent status message) =
      .ok [("STATUS", some status), ("MESSAGE", some message)] := by
  simp only [xmlSafeText, Bool.and_eq_true, decide_eq_true_eq] at hs hm
  have hsd : status.data ≠ [] := by
    intro h
    apply hs.1
    cases status with
    | mk d => rw [show d = [] from h]
  have hmd : message.data ≠ [] := by
    intro h
    apply hm.1
    cases message with
    | mk d => rw [show d = [] from h]
  have hs1 : status.data.isEmpty = false := by
    cases h : status.data.isEmpty with
    | false => rfl
    | true => exact absurd (List.isEmpty_iff.1 h) hsd
  have hm1 : message.data.isEmpty = false := by
    cases h : message.data.isEmpty with
    | false => rfl
    | true => exact absurd (List.isEmpty_iff.1 h) hmd
  unfold parse_xml_request xmlFromString
  dsimp only
  have e0 : (xmlReplyContent status message).data.dropWhile isXmlSpace =
      ('<':: 'C':: 'O':: 'M':: 'M':: 'A':: 'N':: 'D':: '>'::("\n            ".data ++ ('<':: 'S':: 'T':: 'A':: 'T':: 'U':: 'S':: '>'::(status.data ++ ('<':: '/':: 'S':: 'T':: 'A':: 'T':: 'U':: 'S':: '>'::("\n            ".data ++ ('<':: 'M':: 'E':: 'S':: 'S':: 'A':: 'G':: 'E':: '>'::(message.data ++ ('<':: '/':: 'M':: 'E':: 'S':: 'S':: 'A':: 'G':: 'E':: '>'::("\n        ".data ++ ('<':: '/':: 'C':: 'O':: 'M':: 'M':: 'A':: 'N':: 'D':: '>'::"\n        ".data))))))))))) := rfl
  rw [e0]
  have hlen : (('<':: 'C':: 'O':: 'M':: 'M':: 'A':: 'N':: 'D':: '>'::("\n            ".data ++ ('<':: 'S':: 'T':: 'A':: 'T':: 'U':: 'S':: '>'::(status.data ++ ('<':: '/':: 'S':: 'T':: 'A':: 'T':: 'U':: 'S':: '>'::("\n            ".data ++ ('<':: 'M':: 'E':: 'S':: 'S':: 'A':: 'G':: 'E':: '>'::(message.data ++ ('<':: '/':: 'M':: 'E':: 'S':: 'S':: 'A':: 'G':: 'E':: '>'::("\n        ".data ++ ('<':: '/':: 'C':: 'O':: 'M':: 'M':: 'A':: 'N':: 'D':: '>'::"\n        ".data)))))))))))).length + 1 = ((('<':: 'C':: 'O':: 'M':: 'M':: 'A':: 'N':: 'D':: '>'::("\n            ".data ++ ('<':: 'S':: 'T':: 'A':: 'T':: 'U':: 'S':: '>'::(status.data ++ ('<':: '/':: 'S':: 'T':: 'A':: 'T':: 'U':: 'S':: '>'::("\n            ".data ++ ('<':: 'M':: 'E':: 'S':: 'S':: 'A':: 'G':: 'E':: '>'::(message.data ++ ('<':: '/':: 'M':: 'E':: 'S':: 'S':: 'A':: 'G':: 'E':: '>'::("\n        ".data ++ ('<':: '/':: 'C':: 'O':: 'M':: 'M':: 'A':: 'N':: 'D':: '>'::"\n        ".data)))))))))))).length - 4) + 5 := by
    simp [List.length_append]
  rw [hlen, parseElement_reply ((('<':: 'C':: 'O':: 'M':: 'M':: 'A':: 'N':: 'D':: '>'::("\n            ".data ++ ('<':: 'S':: 'T':: 'A':: 'T':: 'U':: 'S':: '>'::(status.data ++ ('<':: '/':: 'S':: 'T':: 'A':: 'T':: 'U':: 'S':: '>'::("\n            ".data ++ ('<':: 'M':: 'E':: 'S':: 'S':: 'A':: 'G':: 'E':: '>'::(message.data ++ ('<':: '/':: 'M':: 'E':: 'S':: 'S':: 'A':: 'G':: 'E':: '>'::("\n        ".data ++ ('<':: '/':: 'C':: 'O':: 'M':: 'M':: 'A':: 'N':: 'D':: '>'::"\n        ".data)))))))))))).length - 4) status.data message.data
    "\n        ".data hs1 hs.2 hm1 hm.2]
  rfl
set_option maxRecDepth 8000 in
/-- C8 counterexample: the markup encoder interpolates the message without
escaping, so for message `"a<b"` the encoded reply document is not
well-formed and decoding fails — the round-trip does not recover the
message. -/
theorem c8_roundtrip_counterexample :
    ¬ ∃ p, parse_xml_request (xmlReplyContent "FAILED" "a<b") = .ok p ∧
      getField p "STATUS" = some "FAILED" ∧ getField p "MESSAGE" = some "a<b" := by
  rintro ⟨p, hp, -, -⟩
  rw [show parse_xml_request (xmlReplyContent "FAILED" "a<b") =
    .error "malformed tag name" from by rfl] at hp
  exact Except.noConfusion hp

/-- C8 (amended): for every status and message that are nonempty and free
of markup-significant characters (`<`, `&`, a bare carriage return, `]`,
or characters outside the XML character range), encoding a reply with the
markup template and decoding it with `parse_xml_request` recovers exactly
the status under key `STATUS` and the message under key `MESSAGE`. -/
theorem c8_roundtrip_amended (status message : String)
    (hs : xmlSafeText status = true) (hm : xmlSafeText message = true) :
    ∃ p, parse_xml_request (xmlReplyContent status message) = .ok p ∧
      getField p "STATUS" = some status ∧ getField p "MESSAGE" = some message :=
  ⟨[("STATUS", some status), ("MESSAGE", some message)],
    parse_xml_request_reply status message hs hm, by rfl, by rfl⟩

/-- Witness for C8 at the standard success reply. -/
theorem c8_roundtrip_amended_witness :
    ∃ p, parse_xml_request
        (xmlReplyContent "SUCCESS" "Transaction validated successfully") = .ok p ∧
      getField p "STATUS" = some "SUCCESS" ∧
      getField p "MESSAGE" = some "Transaction validated successfully" :=
  c8_roundtrip_amended "SUCCESS" "Transaction validated successfully"
    (by decide) (by decide)

/-- C9 counterexample: `"ABC\n"` contains a character outside
`[A-Za-z0-9_.-]`, is nonempty and within the length bound, yet
`validate_bill_ref` accepts it — Python's `$` anchor also matches before a
single trailing newline. -/
theorem c9_validator_counterexample :
    validate_bill_ref "ABC\n" = (true, none) ∧
    "ABC\n" ≠ "" ∧ "ABC\n".length ≤ 50 ∧
    '\n' ∈ "ABC\n".data ∧ isBillRefChar '\n' = false :=
  ⟨by decide, by decide, by decide, by decide, by decide⟩

/-- Witness for C9 at the scenario-2 reference `"INVOICE@123"`. -/
theorem c9_validator_amended_witness :
    validate_bill_ref "INVOICE@123" =
      (false, some "Bill reference number contains invalid characters") :=
  (c9_validator_amended "INVOICE@123").2.1 (by decide) (by decide) (by decide)

end Ipn
